import Mathlib

/-!
Verification of the NeuronX policy-governed tool-access broker.

This file is a shallow embedding, in Lean 4, of the parts of the NeuronX
repository that the verified properties talk about:

* `agent_runtime/agno/policy.py`       — `PolicyEngine.classify_risk`
* `agent_runtime/agno/mcp_bridge.py`   — `MCPBridge` configuration validation
  and `check_mcp_permissions`
* `agent_runtime/agno/memory_store.py` — `MemoryStore.redact_secrets`,
  `_write_atomic`, `_store_local`, `store_memory`
* `agent_runtime/agno/evidence.py`     — `EvidenceLogger.log_event`,
  `_write_evidence_file`
* `LEGACY_IMPORT/.../mcp_selector.py`  — `MCPSelector.execute_auto_mcp_decision`
* `LEGACY_IMPORT/.../mcp_stdio.py`     — `_redact`, `run_stdio_command`

Python strings are modelled as `List Char` (the model is ASCII-faithful:
`str.lower`/`str.upper` are modelled per-character, which agrees with CPython
on ASCII input).  Environment interaction (file system, `datetime.now()`,
`uuid4`, `shutil.which`, process execution) is modelled by passing the
observed values explicitly as arguments, so every definition is executable.
-/

/-- Python strings are modelled as lists of characters. -/
abbrev Str := List Char

/-- Python `str.lower()` (ASCII model, per character). -/
def pyLower (s : Str) : Str := s.map Char.toLower

/-- Python `str.upper()` (ASCII model, per character). -/
def pyUpper (s : Str) : Str := s.map Char.toUpper

/-- Python `needle in hay` substring test. -/
def containsSub (hay needle : Str) : Bool := decide (needle <:+: hay)

/-- Python `s.split(sep)` for a single-character separator `sep`
(as used by `category.lower().split('/')` in `policy.py`). -/
def pySplitChar (sep : Char) : Str → List Str
  | [] => [[]]
  | a :: rest =>
    if a = sep then [] :: pySplitChar sep rest
    else
      match pySplitChar sep rest with
      | [] => [[a]]
      | h :: t => (a :: h) :: t

/-- Association-list lookup (Python `dict.get(k)`), first binding wins. -/
def alookup {α : Type} (kvs : List (Str × α)) (k : Str) : Option α :=
  (kvs.find? (fun kv => decide (kv.1 = k))).map Prod.snd

/-- Python `sep.join(xs)` for `sep = ", "`. -/
def joinCommaSpace : List Str → Str
  | [] => []
  | [x] => x
  | x :: rest => x ++ (", ".toList) ++ joinCommaSpace rest

/-! ## PolicyEngine (`agent_runtime/agno/policy.py`)

`PolicyEngine.__init__` (lines 24–56) fixes three static keyword lists;
`classify_risk` (lines 58–91) checks them in order. -/

/-- `RiskTier` enum from `policy.py` (lines 11–15). -/
inductive RiskTier where
  | GREEN
  | YELLOW
  | RED
  deriving DecidableEq, Repr

/-- `self.always_red_categories` from `PolicyEngine.__init__` (lines 26–34). -/
def alwaysRedCategories : List Str :=
  [ "auth/permissions/rbac".toList,
    "payments/billing".toList,
    "secrets/env/prod credentials".toList,
    "destructive DB migrations (drop/alter)".toList,
    "infra/terraform/k8s".toList,
    "logging/audit tampering".toList,
    "data export / PII access".toList ]

/-- `self.red_keywords` from `PolicyEngine.__init__` (lines 37–44). -/
def redKeywords : List Str :=
  [ "auth".toList, "authentication".toList, "authorization".toList,
    "permissions".toList, "rbac".toList,
    "payment".toList, "billing".toList, "stripe".toList, "charge".toList,
    "invoice".toList,
    "secret".toList, "credential".toList, "password".toList, "token".toList,
    "key".toList, "env".toList,
    "database".toList, "migration".toList, "drop".toList, "alter".toList,
    "delete".toList, "destroy".toList,
    "infra".toList, "terraform".toList, "kubernetes".toList, "k8s".toList,
    "infrastructure".toList,
    "logging".toList, "audit".toList, "tamper".toList, "PII".toList,
    "personal".toList, "export".toList, "data".toList ]

/-- `self.yellow_keywords` from `PolicyEngine.__init__` (lines 47–54). -/
def yellowKeywords : List Str :=
  [ "api".toList, "endpoint".toList, "interface".toList, "contract".toList,
    "database".toList, "schema".toList, "table".toList, "column".toList,
    "security".toList, "encrypt".toList, "decrypt".toList, "hash".toList,
    "deploy".toList, "release".toList, "production".toList,
    "config".toList, "configuration".toList, "setting".toList,
    "user".toList, "profile".toList, "account".toList ]

/-- Whether a task (already lowercased) matches an always-Red category:
`any(keyword in task_lower for keyword in category.lower().split('/'))`
(`classify_risk`, lines 71–73). -/
def categoryMatches (taskLower cat : Str) : Bool :=
  (pySplitChar '/' (pyLower cat)).any (fun kw => containsSub taskLower kw)

/-- The `for` loops of `classify_risk` return the first match; `List.find?`
has exactly that first-match semantics. -/
def firstMatchKeyword (kws : List Str) (taskLower : Str) : Option Str :=
  kws.find? (fun kw => containsSub taskLower kw)

/-- `PolicyEngine.classify_risk` (lines 58–91) together with the reason it
stores in `self._last_classification_reason`.  It is a pure, total function
of the task text and the static lists. -/
def classifyRisk (task : Str) : RiskTier × Str :=
  let taskLower := pyLower task
  match alwaysRedCategories.find? (fun cat => categoryMatches taskLower cat) with
  | some cat => (RiskTier.RED, "Always Red category: ".toList ++ cat)
  | none =>
    match firstMatchKeyword redKeywords taskLower with
    | some kw => (RiskTier.RED, "Red-tier keyword detected: ".toList ++ kw)
    | none =>
      match firstMatchKeyword yellowKeywords taskLower with
      | some kw => (RiskTier.YELLOW, "Yellow-tier keyword detected: ".toList ++ kw)
      | none =>
        (RiskTier.GREEN, "No risk keywords detected - defaulting to Green".toList)

example : (classifyRisk "apply rbac rules".toList).1 = RiskTier.RED := by decide

example : (classifyRisk "".toList).1 = RiskTier.GREEN := by decide

example : classifyRisk "rotate database credentials".toList
    = (RiskTier.RED, "Red-tier keyword detected: credential".toList) := by decide

/-! ## MCPBridge (`agent_runtime/agno/mcp_bridge.py`)

The bridge keeps the parsed JSON configuration in `self.config` and accesses
it with `dict.get` and defaults, so the configuration is modelled as a raw
JSON value. -/

/-- JSON values as produced by `json.load` (floats are not needed by any
verified property and are omitted). -/
inductive JVal where
  | jbool (b : Bool)
  | jstr (s : Str)
  | jnum (n : Int)
  | jarr (xs : List JVal)
  | jobj (kvs : List (Str × JVal))
  | jnull

mutual

/-- Python `==` on JSON values (used by list membership tests). -/
def jvalBeq : JVal → JVal → Bool
  | .jbool a, .jbool b => a == b
  | .jstr a, .jstr b => a == b
  | .jnum a, .jnum b => a == b
  | .jarr a, .jarr b => jvalListBeq a b
  | .jobj a, .jobj b => jvalKvsBeq a b
  | .jnull, .jnull => true
  | _, _ => false

/-- Elementwise `==` on JSON arrays. -/
def jvalListBeq : List JVal → List JVal → Bool
  | [], [] => true
  | a :: as_, b :: bs => jvalBeq a b && jvalListBeq as_ bs
  | _, _ => false

/-- Pairwise `==` on JSON object fields. -/
def jvalKvsBeq : List (Str × JVal) → List (Str × JVal) → Bool
  | [], [] => true
  | (ka, va) :: as_, (kb, vb) :: bs =>
    ka == kb && jvalBeq va vb && jvalKvsBeq as_ bs
  | _, _ => false

end

/-- `dict.get(k)` on a JSON object. -/
def jget (kvs : List (Str × JVal)) (k : Str) : Option JVal :=
  alookup kvs k

/-- Python truthiness of a JSON value (`if not value: ...`). -/
def jtruthy : JVal → Bool
  | .jbool b => b
  | .jstr s => !s.isEmpty
  | .jnum n => decide (n ≠ 0)
  | .jarr xs => !xs.isEmpty
  | .jobj kvs => !kvs.isEmpty
  | .jnull => false

/-- The observable state of an `MCPBridge` instance: `self.is_loaded`,
`self.config` (top-level JSON object fields) and `self.config_path`. -/
structure MCPBridge where
  isLoaded : Bool
  config : List (Str × JVal)
  configPath : Str

/-- `self.provider_actions` (`MCPBridge.__init__`, lines 51–68). -/
def providerActionsCatalog : List (Str × List Str) :=
  [ ("github".toList,
      [ "list_issues".toList, "get_issue".toList, "list_prs".toList,
        "get_pr".toList, "get_checks".toList, "get_ci_status".toList ]),
    ("playwright".toList,
      [ "navigate".toList, "click".toList, "type_text".toList,
        "take_screenshot".toList, "get_text".toList, "wait_for_element".toList,
        "execute_script".toList, "get_page_info".toList ]),
    ("security".toList,
      [ "scan_dependencies".toList, "scan_code".toList, "check_secrets".toList,
        "vulnerability_report".toList, "compliance_check".toList,
        "get_scan_results".toList ]),
    ("docker".toList,
      [ "build_image".toList, "run_container".toList, "list_images".toList,
        "scan_image".toList, "get_logs".toList, "cleanup_images".toList ]) ]

/-- `self.provider_required_env` (`MCPBridge.__init__`, lines 43–48). -/
def providerRequiredEnv : List (Str × List Str) :=
  [ ("github".toList, ["GITHUB_TOKEN".toList]),
    ("playwright".toList, []),
    ("security".toList, []),
    ("docker".toList, []) ]

/-- `MCPBridge.is_mcp_enabled` (lines 196–198):
`self.is_loaded and self.config.get('enabled', False)`. -/
def isMcpEnabled (b : MCPBridge) : Bool :=
  b.isLoaded && (match jget b.config "enabled".toList with
                 | some v => jtruthy v
                 | none => false)

/-- `self.config.get('providers', {})` restricted to the object case
(a validated configuration always has an object there; a non-object would
raise in the Python source when `.get` is called on it). -/
def configProviders (b : MCPBridge) : List (Str × JVal) :=
  match jget b.config "providers".toList with
  | some (.jobj kvs) => kvs
  | _ => []

/-- `providers.get(provider, {})` as an object. -/
def providerConfigOf (b : MCPBridge) (provider : Str) : List (Str × JVal) :=
  match jget (configProviders b) provider with
  | some (.jobj kvs) => kvs
  | _ => []

/-- `MCPBridge.is_provider_enabled` (lines 200–207). -/
def isProviderEnabled (b : MCPBridge) (provider : Str) : Bool :=
  isMcpEnabled b &&
    (match jget (providerConfigOf b provider) "enabled".toList with
     | some v => jtruthy v
     | none => false)

/-- `MCPBridge.is_action_allowed` (lines 209–218): membership of `action` in
`provider_config.get('actions', [])`.  (A non-list value there would raise
`TypeError` in the source; it is modelled as no action being allowed.) -/
def isActionAllowed (b : MCPBridge) (provider action : Str) : Bool :=
  isProviderEnabled b provider &&
    (match jget (providerConfigOf b provider) "actions".toList with
     | some (.jarr xs) => xs.any (fun v => jvalBeq (JVal.jstr action) v)
     | _ => false)

/-- `MCPBridge._check_risk_tier` (lines 264–270). -/
def checkRiskTier (riskTier : Str) : Bool :=
  let tier := pyUpper riskTier
  if tier = "RED".toList then false
  else decide (tier = "GREEN".toList) || decide (tier = "YELLOW".toList)

/-- `provider_role_rules` from `MCPBridge._check_role` (lines 277–282). -/
def providerRoleRules : List (Str × List Str) :=
  [ ("github".toList, ["PLANNER".toList, "IMPLEMENTER".toList, "AUDITOR".toList]),
    ("playwright".toList, ["IMPLEMENTER".toList, "AUDITOR".toList]),
    ("security".toList, ["PLANNER".toList, "AUDITOR".toList]),
    ("docker".toList, ["IMPLEMENTER".toList, "AUDITOR".toList]) ]

/-- `MCPBridge._check_role` (lines 272–285).  The `action` argument is unused
in the source as well. -/
def checkRole (provider action role : Str) : Bool :=
  let roleUpper := pyUpper role
  let allowedRoles := (alookup providerRoleRules provider).getD []
  let _ := action
  decide (roleUpper ∈ allowedRoles)

/-- The `checks` map built by `check_mcp_permissions` (lines 236–242),
always fully populated. -/
structure PermissionChecks where
  mcpEnabled : Bool
  providerEnabled : Bool
  actionAllowed : Bool
  riskTierAllowed : Bool
  roleAllowed : Bool
  deriving DecidableEq, Repr

/-- The result dictionary of `check_mcp_permissions`. -/
structure PermissionResult where
  allowed : Bool
  reason : Str
  checks : PermissionChecks
  deriving DecidableEq, Repr

/-- `MCPBridge.check_mcp_permissions` (lines 220–262). -/
def checkMcpPermissions (b : MCPBridge) (provider action riskTier role : Str) :
    PermissionResult :=
  let checks : PermissionChecks :=
    { mcpEnabled := isMcpEnabled b
      providerEnabled := isProviderEnabled b provider
      actionAllowed := isActionAllowed b provider action
      riskTierAllowed := checkRiskTier riskTier
      roleAllowed := checkRole provider action role }
  if !checks.mcpEnabled then
    ⟨false, "MCP integration not enabled".toList, checks⟩
  else if !checks.providerEnabled then
    ⟨false, "Provider ".toList ++ provider ++ " not enabled".toList, checks⟩
  else if !checks.actionAllowed then
    ⟨false, "Action ".toList ++ action ++ " not allowlisted for provider ".toList
        ++ provider, checks⟩
  else if !checks.riskTierAllowed then
    ⟨false, "Risk tier ".toList ++ riskTier
        ++ " not allowed for MCP operations".toList, checks⟩
  else if !checks.roleAllowed then
    ⟨false, "Role ".toList ++ role ++ " not allowed for ".toList ++ provider
        ++ ":".toList ++ action, checks⟩
  else
    ⟨true, "All permission checks passed".toList, checks⟩

/-- A small loaded configuration used by concrete witnesses: github enabled
with two allowlisted actions. -/
def sampleBridge : MCPBridge :=
  { isLoaded := true
    config :=
      [ ("enabled".toList, .jbool true),
        ("providers".toList, .jobj
          [ ("github".toList, .jobj
              [ ("enabled".toList, .jbool true),
                ("actions".toList, .jarr [.jstr "list_issues".toList,
                                          .jstr "get_issue".toList]),
                ("command".toList, .jarr [.jstr "echo".toList]) ]) ]) ]
    configPath := "mcp_config.json".toList }

example :
    (checkMcpPermissions sampleBridge "github".toList "list_issues".toList
      "green".toList "planner".toList).allowed = true := by decide

example :
    (checkMcpPermissions sampleBridge "github".toList "list_issues".toList
      "RED".toList "planner".toList).allowed = false := by decide

/-! ## Configuration validation (`mcp_bridge.py`, lines 73–194)

`_is_command_available` consults the file system / `PATH` (lines 301–307);
it is modelled as an oracle `cmdAvailable` passed in explicitly.
`_validate_provider` and `_validate_config` append one message to
`self.load_errors` and return `False` at the first violation they find. -/

/-- Python `str()` rendering of the JSON scalars that can appear in the
f-string error messages (only strings occur in practice). -/
def jvalStr : JVal → Str
  | .jstr s => s
  | .jbool true => "True".toList
  | .jbool false => "False".toList
  | .jnull => "None".toList
  | .jnum _ => "<num>".toList
  | .jarr _ => "<list>".toList
  | .jobj _ => "<dict>".toList

/-- `MCPBridge._validate_provider` (lines 140–194).  Returns `none` when the
provider configuration is valid and `some message` for the single error
message appended to `self.load_errors` before the early `return False`. -/
def validateProvider (cmdAvailable : Str → Bool) (name : Str) (cfg : JVal) :
    Option Str :=
  match alookup providerActionsCatalog name with
  | none => some ("Unknown provider: ".toList ++ name)
  | some validActions =>
    match cfg with
    | .jobj kvs =>
      match jget kvs "enabled".toList with
      | none => some ("Provider ".toList ++ name
          ++ " missing \x27enabled\x27 field".toList)
      | some (.jbool enabled) =>
        if !enabled then none
        else
          match jget kvs "actions".toList with
          | none => some ("Provider ".toList ++ name
              ++ " missing \x27actions\x27 allowlist".toList)
          | some (.jarr actions) =>
            match actions.find? (fun a =>
                !(validActions.any (fun va => jvalBeq a (.jstr va)))) with
            | some bad => some ("Provider ".toList ++ name
                ++ ": invalid action \x27".toList ++ jvalStr bad ++ "\x27".toList)
            | none =>
              match jget kvs "command".toList with
              | none => some ("Provider ".toList ++ name
                  ++ " missing \x27command\x27 field".toList)
              | some (.jarr []) => none
              | some (.jarr (c0 :: _)) =>
                if cmdAvailable (jvalStr c0) then none
                else some ("Provider ".toList ++ name
                    ++ " command not found: ".toList ++ jvalStr c0)
              | some _ => some ("Provider ".toList ++ name
                  ++ " \x27command\x27 must be an array (argv style)".toList)
          | some _ => some ("Provider ".toList ++ name
              ++ " \x27actions\x27 must be a list".toList)
      | some _ => some ("Provider ".toList ++ name
          ++ " \x27enabled\x27 must be boolean".toList)
    | _ => some ("Provider ".toList ++ name
        ++ " config must be an object".toList)

/-- The provider loop of `_validate_config` (lines 134–136): it stops at the
first provider that fails to validate, collecting only that provider's single
error message. -/
def validateProviders (cmdAvailable : Str → Bool) :
    List (Str × JVal) → Bool × List Str
  | [] => (true, [])
  | (name, cfg) :: rest =>
    match validateProvider cmdAvailable name cfg with
    | some err => (false, [err])
    | none => validateProviders cmdAvailable rest

/-- `MCPBridge._validate_config` (lines 109–138), returning the success flag
together with the contents of `self.load_errors` (reset to `[]` by
`load_config` before validation, line 83). -/
def validateConfig (cmdAvailable : Str → Bool) (config : List (Str × JVal)) :
    Bool × List Str :=
  match jget config "enabled".toList with
  | none => (false, ["Missing \x27enabled\x27 field in config".toList])
  | some (.jbool enabled) =>
    if !enabled then (true, [])
    else
      match jget config "providers".toList with
      | none => (false, ["Missing \x27providers\x27 section in config".toList])
      | some (.jobj providers) => validateProviders cmdAvailable providers
      | some _ => (false, ["\x27providers\x27 must be an object".toList])
  | some _ => (false, ["\x27enabled\x27 must be a boolean".toList])

/-- The outcome of `MCPBridge.load_config` (lines 73–107) on a successfully
parsed JSON object: validation decides `self.is_loaded` and the final
`self.load_errors`.  (The file-not-found and JSON-parse-error paths set their
own single message and also leave the registry unloaded.) -/
def loadConfigOutcome (cmdAvailable : Str → Bool)
    (config : List (Str × JVal)) : Bool × List Str :=
  let v := validateConfig cmdAvailable config
  (v.1, v.2)

/-- A configuration with two independent violations: both `github` and
`playwright` declare an out-of-catalog action. -/
def twoViolationConfig : List (Str × JVal) :=
  [ ("enabled".toList, .jbool true),
    ("providers".toList, .jobj
      [ ("github".toList, .jobj
          [ ("enabled".toList, .jbool true),
            ("actions".toList, .jarr [.jstr "bogus_github_action".toList]) ]),
        ("playwright".toList, .jobj
          [ ("enabled".toList, .jbool true),
            ("actions".toList, .jarr [.jstr "bogus_pw_action".toList]) ]) ]) ]

example :
    validateConfig (fun _ => true) twoViolationConfig
      = (false, ["Provider github: invalid action \x27bogus_github_action\x27".toList]) := by
  decide

/-! ## MCPSelector (`LEGACY_IMPORT/Legacy NeuronX/agent_runtime/agno/mcp_selector.py`)

`execute_auto_mcp_decision` (lines 186–365) is the autonomous decision
function; its helpers are embedded first. -/

/-- `MCPAppropriateness` enum (selector lines 25–29). -/
inductive MCPAppropriateness where
  | APPROPRIATE
  | NOT_APPROPRIATE
  | MAYBE_APPROPRIATE
  deriving DecidableEq, Repr

/-- `MCPSelector.PROVIDER_KEYWORDS` (lines 78–93), in dict insertion order. -/
def PROVIDER_KEYWORDS : List (Str × List Str) :=
  [ ("github".toList,
      [ "github".toList, "issue".toList, "pr".toList, "pull request".toList,
        "repo".toList, "repository".toList, "branch".toList, "commit".toList,
        "merge".toList, "collaborator".toList, "code review".toList ]),
    ("context7".toList,
      [ "context".toList, "context7".toList, "docs".toList,
        "documentation".toList, "library".toList, "lookup".toList,
        "reference".toList, "semantic search".toList ]),
    ("filesystem".toList,
      [ "file".toList, "directory".toList, "folder".toList, "read".toList,
        "write".toList, "path".toList, "ls".toList, "cat".toList, "fs".toList ]),
    ("linear".toList,
      [ "linear".toList, "ticket".toList, "task".toList,
        "project management".toList, "backlog".toList ]),
    ("postgres".toList,
      [ "postgres".toList, "database".toList, "db".toList, "sql".toList,
        "query".toList, "schema".toList, "table".toList ]),
    ("sentry".toList,
      [ "sentry".toList, "error".toList, "exception".toList, "bug".toList,
        "crash".toList, "log".toList, "monitor".toList ]),
    ("playwright".toList,
      [ "playwright".toList, "e2e".toList, "browser".toList, "ui".toList,
        "screenshot".toList, "web".toList, "page".toList, "click".toList,
        "type".toList, "automation".toList, "test".toList ]),
    ("security".toList,
      [ "security".toList, "scan".toList, "vuln".toList,
        "vulnerability".toList, "deps".toList, "dependencies".toList,
        "secrets".toList, "audit".toList, "compliance".toList,
        "check".toList ]),
    ("docker".toList,
      [ "docker".toList, "container".toList, "image".toList, "build".toList,
        "run".toList, "registry".toList, "cleanup".toList, "logs".toList,
        "scan".toList ]) ]

/-- `MCPSelector.ACTION_PARAM_TEMPLATES` (lines 107–137). -/
def ACTION_PARAM_TEMPLATES : List (Str × Str) :=
  [ ("list_issues".toList, "\x7b\"limit\":5\x7d".toList),
    ("get_issue".toList, "\x7b\"issue_number\":1\x7d".toList),
    ("list_prs".toList, "\x7b\"limit\":5\x7d".toList),
    ("get_pr".toList, "\x7b\"pr_number\":1\x7d".toList),
    ("get_checks".toList, "\x7b\"ref\":\"main\"\x7d".toList),
    ("get_ci_status".toList, "\x7b\"ref\":\"main\"\x7d".toList),
    ("search".toList, "\x7b\"query\":\"test search\"\x7d".toList),
    ("get".toList, "\x7b\"id\":\"test-id\"\x7d".toList),
    ("list".toList, "\x7b\x7d".toList),
    ("navigate".toList, "\x7b\"url\":\"https://example.com\"\x7d".toList),
    ("click".toList, "\x7b\"selector\":\"button\"\x7d".toList),
    ("type_text".toList,
      "\x7b\"selector\":\"input\",\"text\":\"example\"\x7d".toList),
    ("take_screenshot".toList,
      "\x7b\"selector\":\"body\",\"path\":\"screenshot.png\"\x7d".toList),
    ("get_text".toList, "\x7b\"selector\":\"h1\"\x7d".toList),
    ("wait_for_element".toList,
      "\x7b\"selector\":\"h1\",\"timeout\":5000\x7d".toList),
    ("execute_script".toList,
      "\x7b\"script\":\"return document.title\"\x7d".toList),
    ("get_page_info".toList, "\x7b\x7d".toList),
    ("scan_dependencies".toList, "\x7b\"path\":\".\"\x7d".toList),
    ("scan_code".toList, "\x7b\"path\":\".\"\x7d".toList),
    ("check_secrets".toList, "\x7b\"path\":\".\"\x7d".toList),
    ("vulnerability_report".toList, "\x7b\"path\":\".\"\x7d".toList),
    ("compliance_check".toList, "\x7b\"path\":\".\"\x7d".toList),
    ("get_scan_results".toList, "\x7b\"scan_id\":\"latest\"\x7d".toList),
    ("build_image".toList,
      "\x7b\"dockerfile\":\"Dockerfile\",\"tag\":\"myapp:latest\"\x7d".toList),
    ("run_container".toList,
      "\x7b\"image\":\"nginx:latest\",\"ports\":\x7b\"80\":\"80\"\x7d\x7d".toList),
    ("list_images".toList, "\x7b\x7d".toList),
    ("scan_image".toList, "\x7b\"image\":\"nginx:latest\"\x7d".toList),
    ("get_logs".toList, "\x7b\"container_id\":\"container_id\"\x7d".toList),
    ("cleanup_images".toList, "\x7b\"older_than_days\":30\x7d".toList) ]

/-- The selector instance state: `self.mcp_bridge` (may be `None`). -/
structure MCPSelector where
  bridge : Option MCPBridge

/-- `MCPSelector._determine_mcp_appropriateness` (lines 367–386). -/
def determineMcpAppropriateness (task : Str) (riskTier : RiskTier) :
    MCPAppropriateness × Str :=
  let taskLower := pyLower task
  if riskTier = RiskTier.RED then
    (.NOT_APPROPRIATE, "Red-tier tasks require human-in-the-loop (HITL)".toList)
  else
    let matchedProviders := (PROVIDER_KEYWORDS.filter
      (fun pk => pk.2.any (fun kw => containsSub taskLower kw))).map Prod.fst
    if matchedProviders.isEmpty then
      (.MAYBE_APPROPRIATE,
        "Task does not strongly match any provider keywords".toList)
    else
      (.APPROPRIATE,
        "Task matches provider(s): ".toList ++ joinCommaSpace matchedProviders)

/-- The `local_tools` dict keys of
`MCPSelector._check_local_tools_availability` (lines 476–482). -/
def localToolProviders : List Str :=
  [ "github".toList, "context7".toList, "playwright".toList,
    "security".toList, "docker".toList ]

/-- `MCPSelector._check_local_tools_availability` (lines 468–491): `True`
iff one of the provider names occurs in the lowercased task. -/
def checkLocalToolsAvailability (task : Str) : Bool :=
  let taskLower := pyLower task
  localToolProviders.any (fun p => containsSub taskLower p)

/-- `MCPSelector._get_relevant_local_tool` (lines 493–511). -/
def getRelevantLocalTool (task : Str) : Option Str :=
  let t := pyLower task
  if containsSub t "github".toList || containsSub t "issue".toList
      || containsSub t "pr".toList then some "gh".toList
  else if containsSub t "context".toList || containsSub t "context7".toList
      || containsSub t "docs".toList then some "rg".toList
  else if containsSub t "playwright".toList
      || containsSub t "browser".toList then some "npx playwright".toList
  else if containsSub t "security".toList
      || containsSub t "scan".toList then some "npm audit".toList
  else if containsSub t "docker".toList
      || containsSub t "container".toList then some "docker".toList
  else none

/-- `MCPBridge.get_enabled_providers` (bridge lines 368–375); a provider
whose configuration is not an object would raise in the source and is
modelled as disabled. -/
def getEnabledProviders (b : MCPBridge) : List Str :=
  if !isMcpEnabled b then []
  else
    (configProviders b).filterMap (fun nc =>
      match nc.2 with
      | .jobj kvs =>
        match jget kvs "enabled".toList with
        | some v => if jtruthy v then some nc.1 else none
        | none => none
      | _ => none)

/-- `MCPBridge.get_allowed_actions` (bridge lines 377–384), projected to the
string actions of the allowlist (validated allowlists only contain strings). -/
def getAllowedActions (b : MCPBridge) (provider : Str) : List Str :=
  if !isProviderEnabled b provider then []
  else
    match jget (providerConfigOf b provider) "actions".toList with
    | some (.jarr xs) => xs.filterMap (fun v => match v with
        | .jstr s => some s
        | _ => none)
    | _ => []

/-- `MCPBridge.get_required_env_vars` (bridge lines 386–388). -/
def getRequiredEnvVars (provider : Str) : List Str :=
  (alookup providerRequiredEnv provider).getD []

/-- `' '.join(f'{var}=...' for var in env_vars)` plus trailing space
(`_generate_command_snippet`, lines 443–449). -/
def envVarsTag : List Str → Str
  | [] => []
  | [v] => v ++ "=...".toList
  | v :: rest => v ++ "=... ".toList ++ envVarsTag rest

/-- `MCPSelector._generate_command_snippet` (lines 432–454). -/
def generateCommandSnippet (sel : MCPSelector) (provider action : Str) : Str :=
  let configPath := match sel.bridge with
    | some b => b.configPath
    | none => "mcp_config.json".toList
  let actionParams := (alookup ACTION_PARAM_TEMPLATES action).getD "\x7b\x7d".toList
  let envVars := (alookup providerRequiredEnv provider).getD []
  let envLead := if envVars.isEmpty then [] else envVarsTag envVars ++ " ".toList
  let exampleTask := "Using ".toList ++ provider ++ " ".toList ++ action
  envLead ++ "python3 agent_runtime/agno/main.py --mcp-config ".toList
    ++ configPath ++ " --mcp-call ".toList ++ provider ++ " ".toList ++ action
    ++ " \x27".toList ++ actionParams ++ "\x27 \"".toList ++ exampleTask
    ++ "\"".toList

/-- `ProviderSuggestion` dataclass (selector lines 32–39). -/
structure ProviderSuggestion where
  providerName : Str
  reason : Str
  allowedActions : List Str
  requiredEnvVars : List Str
  commandSnippet : Str
  deriving DecidableEq, Repr

/-- `MCPSelector._get_provider_suggestions` (lines 388–430); the
`risk_tier` parameter is unused in the source body as well. -/
def getProviderSuggestions (sel : MCPSelector) (task : Str)
    (riskTier : RiskTier) : List ProviderSuggestion :=
  let _ := riskTier
  match sel.bridge with
  | none => []
  | some br =>
    if !isMcpEnabled br then []
    else
      let taskLower := pyLower task
      (getEnabledProviders br).filterMap (fun name =>
        let keywords := (alookup PROVIDER_KEYWORDS name).getD []
        let matched := keywords.filter (fun kw => containsSub taskLower kw)
        if matched.isEmpty then none
        else
          match getAllowedActions br name with
          | [] => none
          | exampleAction :: restActions =>
            some { providerName := name
                   reason := "Task contains keywords: ".toList
                     ++ joinCommaSpace (matched.take 3)
                   allowedActions := exampleAction :: restActions
                   requiredEnvVars := getRequiredEnvVars name
                   commandSnippet :=
                     generateCommandSnippet sel name exampleAction })

/-- `AutoMCPDecision` dataclass (lines 42–51); the `reasoning` dict is
projected to its `"reason"` entry (the other entries are copies of values
that already appear in this structure or in the inputs). -/
structure AutoMCPDecision where
  decision : Str
  reason : Str
  providerAction : Option (Str × Str)
  actionParams : Str
  budgetCalls : Nat
  budgetSeconds : Nat
  deriving DecidableEq, Repr

/-- `MCPSelector._generate_action_parameters` (lines 456–466) up to the JSON
decoding of the template text (the decoded dict carries the same
information as the template). -/
def generateActionParameters (action : Str) : Str :=
  (alookup ACTION_PARAM_TEMPLATES action).getD "\x7b\x7d".toList

/-- `MCPSelector.execute_auto_mcp_decision` (lines 186–365), step numbers as
in the source comments. -/
def executeAutoMcpDecision (sel : MCPSelector) (task readinessStatus : Str)
    (mcpBridge : MCPBridge) : AutoMCPDecision :=
  -- 1. risk tier classification
  let rc := classifyRisk task
  let riskTier := rc.1
  -- 2. block unsafe tiers
  if riskTier = RiskTier.RED ∨ riskTier = RiskTier.YELLOW then
    { decision := "block_unsafe".toList
      reason := "AUTO-MCP BLOCKED: ".toList
        ++ (if riskTier = RiskTier.RED then "RED".toList else "YELLOW".toList)
        ++ " tier tasks require human review".toList
      providerAction := none
      actionParams := "\x7b\x7d".toList
      budgetCalls := 0
      budgetSeconds := 0 }
  else
    -- 3. determine MCP appropriateness
    let app := determineMcpAppropriateness task riskTier
    let mcpAppropriate := app.1
    -- 4. if not appropriate, consider local tools
    if mcpAppropriate ≠ MCPAppropriateness.APPROPRIATE
        ∧ checkLocalToolsAvailability task then
      { decision := "use_local_tools".toList
        reason := "Local tools available and MCP not appropriate".toList
        providerAction := none
        actionParams := "\x7b\x7d".toList
        budgetCalls := 0
        budgetSeconds := 0 }
    else if mcpAppropriate = MCPAppropriateness.NOT_APPROPRIATE then
      { decision := "block_safe".toList
        reason := "MCP not appropriate and no local tools available".toList
        providerAction := none
        actionParams := "\x7b\x7d".toList
        budgetCalls := 0
        budgetSeconds := 0 }
    -- 5. readiness RED blocks execution (reached by APPROPRIATE tasks and by
    -- MAYBE_APPROPRIATE tasks without local tools, as in the source)
    else if readinessStatus = "RED".toList then
      { decision := "block_unsafe".toList
        reason := "AUTO-MCP BLOCKED: Readiness RED prevents autonomous execution".toList
        providerAction := none
        actionParams := "\x7b\x7d".toList
        budgetCalls := 0
        budgetSeconds := 0 }
    else
      -- 6./7. provider suggestions, first provider and first allowed action
      match getProviderSuggestions sel task riskTier with
      | [] =>
        { decision := "block_safe".toList
          reason := "No suitable MCP providers found for task".toList
          providerAction := none
          actionParams := "\x7b\x7d".toList
          budgetCalls := 0
          budgetSeconds := 0 }
      | selected :: _ =>
        match selected.allowedActions with
        | [] =>
          { decision := "block_safe".toList
            reason := "No allowed actions for provider ".toList
              ++ selected.providerName
            providerAction := none
            actionParams := "\x7b\x7d".toList
            budgetCalls := 0
            budgetSeconds := 0 }
        | actionName :: _ =>
          -- 8. re-check allowlisting against the bridge argument
          if !isActionAllowed mcpBridge selected.providerName actionName then
            { decision := "block_safe".toList
              reason := "Action ".toList ++ actionName
                ++ " not allowlisted for provider ".toList
                ++ selected.providerName
              providerAction := none
              actionParams := "\x7b\x7d".toList
              budgetCalls := 0
              budgetSeconds := 0 }
          else
            -- 9.–11. parameters, budget, final decision
            { decision := "execute_mcp".toList
              reason := "GREEN tier task with appropriate MCP provider and allowlisted action".toList
              providerAction := some (selected.providerName, actionName)
              actionParams := generateActionParameters actionName
              budgetCalls := 1
              budgetSeconds := 10 }

example :
    (executeAutoMcpDecision ⟨some sampleBridge⟩ "list github issues".toList
      "GREEN".toList sampleBridge).decision = "execute_mcp".toList := by decide

example :
    (executeAutoMcpDecision ⟨none⟩ "hello".toList "RED".toList
      sampleBridge).decision = "block_unsafe".toList := by decide

/-! ## Stdio executor (`LEGACY_IMPORT/Legacy NeuronX/agent_runtime/agno/mcp_stdio.py`)

`run_stdio_command` executes an external process; here the completed-process
observation (exit code and captured output) is an explicit input, and the
`json.loads` call on the redacted stdout is abstracted by a parse oracle
together with the exact text handed to it. -/

/-- `REDACT_KEYS` (`mcp_stdio.py`, line 15).  The source keeps these names in
a Python `set` whose iteration order is unspecified; the model fixes the
literal order, and the verified properties hold for every order. -/
def REDACT_KEYS : List Str :=
  [ "GITHUB_TOKEN".toList, "CONTEXTSTREAM_API_KEY".toList,
    "MCP_API_KEY".toList, "MCP_TLS_CERT".toList,
    "MCP_SERVER_HOST".toList, "MCP_SERVER_PORT".toList ]

/-- The replacement marker used by `_redact` (line 25). -/
def redactMarker : Str := "[redacted]".toList

/-- The interior of `redactMarker` between its brackets. -/
def redactedInner : Str := "redacted".toList

/-- Python `text.replace(pat, rep)`: every occurrence of `pat`, scanning
left to right without overlap, is replaced by `rep`.  (`_redact` only ever
calls this with a non-empty `pat`; for an empty `pat` this model returns the
text unchanged.) -/
def replaceAllGo (pat rep : Str) : Nat → Str → Str
  | _, [] => []
  | 0, s => s
  | fuel + 1, c :: rest =>
    if pat.isPrefixOf (c :: rest) ∧ pat ≠ [] then
      rep ++ replaceAllGo pat rep fuel (rest.drop (pat.length - 1))
    else c :: replaceAllGo pat rep fuel rest

/-- Python `text.replace(pat, rep)` proper: the fuel argument of
`replaceAllGo` only makes the recursion structural; it starts at the text
length, which the scan never exceeds. -/
def replaceAll (pat rep s : Str) : Str := replaceAllGo pat rep s.length s

/-- One key of the `_redact` loop (`mcp_stdio.py`, lines 22–25): replace the
key's current environment value, if any and non-empty, by the marker. -/
def redactStep (env : Str → Option Str) (acc : Str) (k : Str) : Str :=
  match env k with
  | some v => if v.isEmpty then acc else replaceAll v redactMarker acc
  | none => acc

/-- `_redact(text, env)` (`mcp_stdio.py`, lines 18–26). -/
def redactText (env : Str → Option Str) (text : Str) : Str :=
  if text.isEmpty then text
  else REDACT_KEYS.foldl (redactStep env) text

/-- Python's default `str.strip()` character class
(ASCII whitespace as used by captured process output). -/
def isPySpace (c : Char) : Bool :=
  c = ' ' || c = '\t' || c = '\n' || c = '\x0d' || c = '\x0b' || c = '\x0c'

/-- Python `s.strip()`. -/
def pyStrip (s : Str) : Str :=
  ((s.dropWhile isPySpace).reverse.dropWhile isPySpace).reverse

/-- The observation of a completed `subprocess.run` call. -/
structure ProcOutcome where
  exitCode : Int
  procStdout : Str
  procStderr : Str

/-- The dictionary returned by `run_stdio_command`: `ok`, `error`, and the
`meta` fields; `dataText` is the redacted stdout text handed to
`json.loads` on the success path (`data` itself is its parse). -/
structure StdioResult where
  ok : Bool
  dataText : Option Str
  errorText : Option Str
  exitCode : Int
  stdoutLen : Nat
  stderrLen : Nat
  stdoutPreview : Option Str
  stderrPreview : Option Str
  deriving DecidableEq, Repr

/-- `run_stdio_command` (`mcp_stdio.py`, lines 29–74) on a command that
completed (the `FileNotFoundError`/timeout branches return fixed texts and
never touch captured output).  `jsonParses` abstracts whether `json.loads`
accepts the redacted stdout. -/
def runStdioCommandCompleted (jsonParses : Str → Bool)
    (env : Str → Option Str) (proc : ProcOutcome) : StdioResult :=
  let stdout := redactText env proc.procStdout
  let stderr := redactText env proc.procStderr
  if proc.exitCode ≠ 0 then
    { ok := false
      dataText := none
      errorText := some (if (pyStrip stderr).isEmpty
        then "MCP command failed".toList else pyStrip stderr)
      exitCode := proc.exitCode
      stdoutLen := stdout.length
      stderrLen := stderr.length
      stdoutPreview := none
      stderrPreview := some (stderr.take 800) }
  else if stdout.isEmpty then
    { ok := true
      dataText := none
      errorText := none
      exitCode := proc.exitCode
      stdoutLen := stdout.length
      stderrLen := stderr.length
      stdoutPreview := none
      stderrPreview := none }
  else if jsonParses stdout then
    { ok := true
      dataText := some stdout
      errorText := none
      exitCode := proc.exitCode
      stdoutLen := stdout.length
      stderrLen := stderr.length
      stdoutPreview := none
      stderrPreview := none }
  else
    { ok := false
      dataText := none
      errorText := some "Invalid MCP response (non-JSON)".toList
      exitCode := proc.exitCode
      stdoutLen := stdout.length
      stderrLen := stderr.length
      stdoutPreview := some (stdout.take 800)
      stderrPreview := none }

example :
    replaceAll "red".toList redactMarker "a red here".toList
      = "a [redacted] here".toList := by decide

/-! ## EvidenceLogger (`agent_runtime/agno/evidence.py`)

`_write_evidence_file` (lines 139–164) swallows every write exception,
printing two lines to stderr, and returns the filename it computed either
way; `log_event` (lines 71–92) requires an active session. -/

/-- The observable state of an `EvidenceLogger`: `self.current_session_id`. -/
structure EvidenceLogger where
  currentSessionId : Option Str

/-- What `_write_evidence_file` produces: the returned filename, whether the
evidence file was actually created, and the lines printed to stderr. -/
structure EvidenceWrite where
  filename : Str
  fileCreated : Bool
  stderrLines : List Str
  deriving DecidableEq, Repr

/-- `EvidenceLogger._write_evidence_file` (lines 139–164).  `timestamp`
stands for `datetime.now().strftime(...)`; `writeFailure` is `none` when the
`open`/`json.dump` succeeds and `some excMsg` when it raises. -/
def writeEvidenceFile (logger : EvidenceLogger) (timestamp eventType : Str)
    (writeFailure : Option Str) : EvidenceWrite :=
  let sidPart := match logger.currentSessionId with
    | some sid => sid ++ "_".toList
    | none => []
  let fname := timestamp ++ "_".toList ++ sidPart ++ eventType ++ ".json".toList
  match writeFailure with
  | none => { filename := fname, fileCreated := true, stderrLines := [] }
  | some excMsg =>
    { filename := fname
      fileCreated := false
      stderrLines := [ "Evidence logging failed: ".toList ++ excMsg,
                       "Evidence data: <event record>".toList ] }

/-- `EvidenceLogger.log_event` (lines 71–92): raises `RuntimeError` when no
session is active, otherwise returns `_write_evidence_file`'s filename. -/
def logEvent (logger : EvidenceLogger) (timestamp eventType : Str)
    (writeFailure : Option Str) : Except Str EvidenceWrite :=
  match logger.currentSessionId with
  | none => .error "No active session. Call start_session() first.".toList
  | some _ => .ok (writeEvidenceFile logger timestamp eventType writeFailure)

/-! ## MemoryStore (`agent_runtime/agno/memory_store.py`)

`redact_secrets` (lines 89–155) applies three regex families in a fixed
order.  The regexes are embedded exactly (ASCII model of `\w`, `\s`, and
`re.IGNORECASE`):

* `\b[A-Z0-9_]+_KEY\b` (and `_TOKEN`/`_SECRET`/`_PASSWORD`) with
  `re.IGNORECASE`: both `\b` anchors pin the match to a maximal run of word
  characters, so the pattern rewrites exactly those runs that end
  case-insensitively in the suffix and have at least one extra leading word
  character;
* `Authorization:\s*Bearer\s+[A-Za-z0-9\-._~+/]+` with `re.IGNORECASE`;
* `password=[^&\s]+` (and `api_key=`/`token=`) with `re.IGNORECASE`.

All scans are leftmost, non-overlapping, continuing after each replacement,
which is `re.sub`'s semantics.  `Nat` fuel arguments (started at the text
length, which the scans never exceed) only make the recursions structural. -/

/-- Python regex `\w` (ASCII model). -/
def isWordChar (c : Char) : Bool := c.isAlpha || c.isDigit || c = '_'

/-- Whether a maximal word-character run is matched by
`\b[A-Z0-9_]+<sfx>\b` under `re.IGNORECASE` (with `sfx` like `_KEY`). -/
def envTokenMatches (sfx run : Str) : Bool :=
  sfx.isSuffixOf (pyLower run) && decide (sfx.length < run.length)

def redactTokenPassGo (sfx marker : Str) : Nat → Str → Str
  | _, [] => []
  | 0, s => s
  | fuel + 1, c :: rest =>
    if isWordChar c then
      let run := (c :: rest).takeWhile isWordChar
      let tl := (c :: rest).dropWhile isWordChar
      (if envTokenMatches sfx run then marker else run)
        ++ redactTokenPassGo sfx marker fuel tl
    else c :: redactTokenPassGo sfx marker fuel rest

/-- One `re.sub` pass for an environment-variable style pattern,
e.g. `re.sub(r'\b[A-Z0-9_]+_KEY\b', '[REDACTED:KEY]', text, re.IGNORECASE)`
with `sfx = "_key"`. -/
def redactTokenPass (sfx marker s : Str) : Str :=
  redactTokenPassGo sfx marker s.length s

/-- The regex class `[A-Za-z0-9\-._~+/]` of the Bearer pattern. -/
def isBearerChar (c : Char) : Bool :=
  c.isAlpha || c.isDigit || c = '-' || c = '.' || c = '_' || c = '~'
    || c = '+' || c = '/'

/-- Case-insensitive literal match: consume `pat` from the front of `s`. -/
def stripCi (pat : Str) (s : Str) : Option Str :=
  match pat, s with
  | [], rest => some rest
  | _ :: _, [] => none
  | p :: ps, c :: cs =>
    if Char.toLower c = Char.toLower p then stripCi ps cs else none

/-- Try `Authorization:\s*Bearer\s+[A-Za-z0-9\-._~+/]+` at the current
position; on success return the rest of the text after the match. -/
def tryBearer (s : Str) : Option Str :=
  match stripCi "authorization:".toList s with
  | none => none
  | some r1 =>
    let r2 := r1.dropWhile isPySpace
    match stripCi "bearer".toList r2 with
    | none => none
    | some r3 =>
      if (r3.takeWhile isPySpace).isEmpty then none
      else
        let r4 := r3.dropWhile isPySpace
        if (r4.takeWhile isBearerChar).isEmpty then none
        else some (r4.dropWhile isBearerChar)

def redactBearerGo : Nat → Str → Str
  | _, [] => []
  | 0, s => s
  | fuel + 1, c :: rest =>
    match tryBearer (c :: rest) with
    | some remainder =>
      "Authorization: Bearer [REDACTED:TOKEN]".toList ++ redactBearerGo fuel remainder
    | none => c :: redactBearerGo fuel rest

/-- The Bearer-header `re.sub` pass (`redact_secrets`, lines 129–134). -/
def redactBearer (s : Str) : Str := redactBearerGo s.length s

/-- The regex class `[^&\s]` of the query-parameter patterns. -/
def isParamValChar (c : Char) : Bool := !(c = '&') && !(isPySpace c)

/-- Try `<pat>[^&\s]+` (e.g. `password=[^&\s]+`) at the current position. -/
def tryParam (pat s : Str) : Option Str :=
  match stripCi pat s with
  | none => none
  | some r =>
    if (r.takeWhile isParamValChar).isEmpty then none
    else some (r.dropWhile isParamValChar)

def redactParamGo (pat marker : Str) : Nat → Str → Str
  | _, [] => []
  | 0, s => s
  | fuel + 1, c :: rest =>
    match tryParam pat (c :: rest) with
    | some remainder => marker ++ redactParamGo pat marker fuel remainder
    | none => c :: redactParamGo pat marker fuel rest

/-- One query-parameter `re.sub` pass (`redact_secrets`, lines 137–149);
`marker` is the full replacement, e.g. `password=[REDACTED:PASSWORD]`. -/
def redactParam (pat marker s : Str) : Str := redactParamGo pat marker s.length s

/-- `MemoryStore.redact_secrets` (lines 89–155): the seven `re.sub` passes
in source order, then the fail-safe emptiness check (which only fires on
empty input, raising `ValueError`). -/
def redactSecrets (text : Str) : Except Str Str :=
  let r1 := redactTokenPass "_key".toList "[REDACTED:KEY]".toList text
  let r2 := redactTokenPass "_token".toList "[REDACTED:TOKEN]".toList r1
  let r3 := redactTokenPass "_secret".toList "[REDACTED:SECRET]".toList r2
  let r4 := redactTokenPass "_password".toList "[REDACTED:PASSWORD]".toList r3
  let r5 := redactBearer r4
  let r6 := redactParam "password=".toList "password=[REDACTED:PASSWORD]".toList r5
  let r7 := redactParam "api_key=".toList "api_key=[REDACTED:API_KEY]".toList r6
  let r8 := redactParam "token=".toList "token=[REDACTED:TOKEN]".toList r7
  if r8.isEmpty then .error "Redaction produced empty string".toList
  else .ok r8

example : (redactSecrets "tags DEMO_API_KEY here".toList).toOption
    = some "tags [REDACTED:KEY] here".toList := by decide

example : (redactSecrets "call with api_key=abc123&x=1".toList).toOption
    = some "call with [REDACTED:KEY]=abc123&x=1".toList := by decide

example : (redactSecrets "password=hunter2 rest".toList).toOption
    = some "password=[REDACTED:PASSWORD] rest".toList := by decide

example : (redactSecrets "my_token=abc".toList).toOption
    = some "[REDACTED:TOKEN]=abc".toList := by decide

example : (redactSecrets "_KEY alone".toList).toOption
    = some "_KEY alone".toList := by decide

example : (redactSecrets "A_KEY_KEY end".toList).toOption
    = some "[REDACTED:KEY] end".toList := by decide

example : (redactSecrets "authorization:bearer x/y~z end".toList).toOption
    = some "Authorization: Bearer [REDACTED:TOKEN] end".toList := by decide

example : (redactSecrets "Authorization: Bearer abc.123".toList).toOption
    = some "Authorization: Bearer [REDACTED:TOKEN]".toList := by decide

/-- Python values appearing in memory records.  Scalars other than strings
pass through `_store_local`'s redaction untouched; `pnone` (JSON `null`)
stands for them. -/
inductive PyVal where
  | pstr (s : Str)
  | plist (xs : List PyVal)
  | pdict (kvs : List (Str × PyVal))
  | pnone

/-- Opening brace character (written via its code point). -/
def obraceC : Char := Char.ofNat 123

/-- Closing brace character (written via its code point). -/
def cbraceC : Char := Char.ofNat 125

/-- One hexadecimal digit. -/
def hexDigit (n : Nat) : Char :=
  if n < 10 then Char.ofNat (48 + n) else Char.ofNat (97 + (n - 10))

/-- `json.dumps` escaping of one character (`ensure_ascii=False`: non-ASCII
characters are emitted as is). -/
def jsonEscapeChar (c : Char) : Str :=
  if c = '"' then ['\\', '"']
  else if c = '\\' then ['\\', '\\']
  else if c = '\n' then ['\\', 'n']
  else if c = '\t' then ['\\', 't']
  else if c = '\x0d' then ['\\', 'r']
  else if c.toNat < 32 then
    '\\' :: 'u' :: '0' :: '0' :: [hexDigit (c.toNat / 16), hexDigit (c.toNat % 16)]
  else [c]

/-- `json.dumps` escaping of a string body. -/
def jsonEscape (s : Str) : Str := s.foldr (fun c acc => jsonEscapeChar c ++ acc) []

/-- A JSON string literal. -/
def jsonQuote (s : Str) : Str := '"' :: (jsonEscape s ++ ['"'])

mutual

/-- `json.dumps(value)` with the default separators `', '` and `': '`
(used for the index entry, `_store_local` line 235). -/
def pyDumps : PyVal → Str
  | .pstr s => jsonQuote s
  | .pnone => "null".toList
  | .plist xs => '[' :: (pyDumpsElems xs ++ [']'])
  | .pdict kvs => obraceC :: (pyDumpsKvs kvs ++ [cbraceC])

def pyDumpsElems : List PyVal → Str
  | [] => []
  | x :: rest =>
    pyDumps x ++ (if rest.isEmpty then [] else ", ".toList) ++ pyDumpsElems rest

def pyDumpsKvs : List (Str × PyVal) → Str
  | [] => []
  | (k, v) :: rest =>
    jsonQuote k ++ ": ".toList ++ pyDumps v
      ++ (if rest.isEmpty then [] else ", ".toList) ++ pyDumpsKvs rest

end

/-- `n` spaces. -/
def spacesN (n : Nat) : Str := List.replicate n ' '

mutual

/-- `json.dumps(value, indent=2)` (used for the record file, `_store_local`
line 223): the value is rendered with its members at column `ind + 2` and
its closing delimiter at column `ind`. -/
def pyDumpsInd (ind : Nat) : PyVal → Str
  | .pstr s => jsonQuote s
  | .pnone => "null".toList
  | .plist [] => "[]".toList
  | .plist (x :: rest) =>
    '[' :: '\n' :: (pyDumpsIndElems (ind + 2) (x :: rest)
      ++ '\n' :: (spacesN ind ++ [']']))
  | .pdict [] => [obraceC, cbraceC]
  | .pdict (kv :: rest) =>
    obraceC :: '\n' :: (pyDumpsIndKvs (ind + 2) (kv :: rest)
      ++ '\n' :: (spacesN ind ++ [cbraceC]))

def pyDumpsIndElems (ind : Nat) : List PyVal → Str
  | [] => []
  | x :: rest =>
    spacesN ind ++ pyDumpsInd ind x
      ++ (if rest.isEmpty then [] else ",\n".toList) ++ pyDumpsIndElems ind rest

def pyDumpsIndKvs (ind : Nat) : List (Str × PyVal) → Str
  | [] => []
  | (k, v) :: rest =>
    spacesN ind ++ jsonQuote k ++ ": ".toList ++ pyDumpsInd ind v
      ++ (if rest.isEmpty then [] else ",\n".toList) ++ pyDumpsIndKvs ind rest

end

mutual

/-- `MemoryStore._redact_nested` (lines 243–260): recursive redaction of
nested structures; a `ValueError` from `redact_secrets` propagates. -/
def redactNested : PyVal → Except Str PyVal
  | .pstr s =>
    match redactSecrets s with
    | .ok r => .ok (.pstr r)
    | .error e => .error e
  | .plist xs =>
    match redactNestedList xs with
    | .ok r => .ok (.plist r)
    | .error e => .error e
  | .pdict kvs =>
    match redactNestedKvs kvs with
    | .ok r => .ok (.pdict r)
    | .error e => .error e
  | .pnone => .ok .pnone

def redactNestedList : List PyVal → Except Str (List PyVal)
  | [] => .ok []
  | x :: rest =>
    match redactNested x, redactNestedList rest with
    | .ok x2, .ok rest2 => .ok (x2 :: rest2)
    | .error e, _ => .error e
    | _, .error e => .error e

def redactNestedKvs : List (Str × PyVal) → Except Str (List (Str × PyVal))
  | [] => .ok []
  | (k, v) :: rest =>
    match redactNested v, redactNestedKvs rest with
    | .ok v2, .ok rest2 => .ok ((k, v2) :: rest2)
    | .error e, _ => .error e
    | _, .error e => .error e

end

/-- The per-field redaction loop of `_store_local` (lines 209–220): string
fields go through `redact_secrets` (a `ValueError` becomes an `IOError`
naming the field), dict/list fields through `_redact_nested`, and anything
else is copied as is. -/
def redactRecordFields : List (Str × PyVal) → Except Str (List (Str × PyVal))
  | [] => .ok []
  | (k, v) :: rest =>
    let fieldResult : Except Str PyVal :=
      match v with
      | .pstr s =>
        match redactSecrets s with
        | .ok r => .ok (.pstr r)
        | .error e =>
          .error ("Redaction failed for field \x27".toList ++ k
            ++ "\x27: ".toList ++ e)
      | .plist xs =>
        match redactNestedList xs with
        | .ok r => .ok (.plist r)
        | .error e => .error e
      | .pdict kvs =>
        match redactNestedKvs kvs with
        | .ok r => .ok (.pdict r)
        | .error e => .error e
      | .pnone => .ok .pnone
    match fieldResult, redactRecordFields rest with
    | .ok v2, .ok rest2 => .ok ((k, v2) :: rest2)
    | .error e, _ => .error e
    | _, .error e => .error e

/-- The local file system, path ↦ content.  `_write_atomic` (lines 157–184)
writes a fresh uniquely-named temp file and `rename`s it onto the
destination path; the rename *replaces* whatever was at that path, so a
completed atomic write is a map update. -/
abbrev FileSys := List (Str × Str)

/-- A completed `_write_atomic`: the destination now holds exactly the new
content (previous content at that path is gone). -/
def setFile (fs : FileSys) (path content : Str) : FileSys :=
  match fs with
  | [] => [(path, content)]
  | (p, c) :: rest =>
    if p = path then (path, content) :: rest
    else (p, c) :: setFile rest path content

/-- Read a path back. -/
def getFile (fs : FileSys) (path : Str) : Option Str := alookup fs path

/-- The environment observations `_store_local` makes:
the `_is_writable` probe, `datetime.now().strftime('%Y%m%d_%H%M%S')`,
`uuid.uuid4().hex[:8]`, and `datetime.now().isoformat()`. -/
structure StoreEnv where
  writable : Bool
  nameStamp : Str
  uid8 : Str
  isoStamp : Str

/-- `self.index_file` (`__init__`, line 54). -/
def indexFilePath (memoryDir : Str) : Str := memoryDir ++ "/INDEX.jsonl".toList

/-- `redacted_record.get("summary", "")[:100]` (line 232; the summary of a
valid record is a string). -/
def summarySnippet (redactedRecord : List (Str × PyVal)) : Str :=
  match alookup redactedRecord "summary".toList with
  | some (.pstr s) => s.take 100
  | _ => []

/-- `MemoryStore._store_local` (lines 186–241).  Returns the new file
system, the record file path, and the index line that was written.  Note
that the index "append" on line 236 is performed with `_write_atomic` on
`self.index_file`, i.e. the index file is *replaced* by the single new
line. -/
def storeLocal (memoryDir : Str) (env : StoreEnv) (fs : FileSys)
    (record : List (Str × PyVal)) : Except Str (FileSys × Str × Str) :=
  if !env.writable then .error "Memory directory not writable".toList
  else
    let fileName := env.nameStamp ++ "_".toList ++ env.uid8 ++ ".json".toList
    let filePath := memoryDir ++ "/".toList ++ fileName
    match redactRecordFields record with
    | .error msg => .error msg
    | .ok redactedRecord =>
      let content := pyDumpsInd 0 (.pdict redactedRecord)
      let fs1 := setFile fs filePath content
      let indexEntry : PyVal := .pdict
        [ ("timestamp".toList, .pstr env.isoStamp),
          ("file".toList, .pstr filePath),
          ("type".toList,
            (alookup record "type".toList).getD (.pstr "unknown".toList)),
          ("tags".toList, (alookup record "tags".toList).getD (.plist [])),
          ("summary".toList, .pstr (summarySnippet redactedRecord)) ]
      let indexContent := pyDumps indexEntry ++ "\n".toList
      let fs2 := setFile fs1 (indexFilePath memoryDir) indexContent
      .ok (fs2, filePath, indexContent)

/-- The required-field names of `store_memory` (line 336). -/
def requiredRecordFields : List Str :=
  [ "id".toList, "type".toList, "summary".toList, "sources".toList,
    "date".toList, "tags".toList ]

/-- The `result` dictionary of `store_memory`. -/
structure StoreResult where
  localStatus : Str
  localPath : Option Str
  remoteStatus : Str
  remoteError : Option Str
  redactedFlag : Bool
  deriving DecidableEq, Repr

/-- `MemoryStore.store_memory` (lines 315–388).  `client` models the
optional `contextstream_client` dict (its `url`/`api_key` entries);
`remoteOk` models the network outcome of `_store_remote`.  A local failure
raises `IOError` (the `Except.error` case). -/
def storeMemory (memoryDir : Str) (env : StoreEnv) (remoteOk : Bool)
    (fs : FileSys) (record : List (Str × PyVal))
    (client : Option (Option Str × Option Str)) :
    Except Str (FileSys × StoreResult) :=
  match requiredRecordFields.find? (fun f => (alookup record f).isNone) with
  | some f => .error ("Missing required field: ".toList ++ f)
  | none =>
    match storeLocal memoryDir env fs record with
    | .error e => .error ("Local storage failed: ".toList ++ e)
    | .ok (fs2, path, _) =>
      let base : StoreResult :=
        { localStatus := "success".toList
          localPath := some path
          remoteStatus := "skipped".toList
          remoteError := none
          redactedFlag := true }
      match client with
      | none => .ok (fs2, base)
      | some (some _, some _) =>
        if remoteOk then
          .ok (fs2, { base with remoteStatus := "success".toList })
        else
          .ok (fs2, { base with remoteStatus := "failure".toList,
                                remoteError := some "remote_store_error".toList })
      | some _ =>
        .ok (fs2, { base with remoteStatus := "skipped".toList,
                              remoteError := some "remote_not_configured".toList })

example :
    pyDumps (.pdict [("a".toList, .pstr "x".toList),
                     ("b".toList, .plist [.pstr "y".toList])])
      = "\x7b\"a\": \"x\", \"b\": [\"y\"]\x7d".toList := by decide

/-! ## Theorems: risk classification (claims C5, C7) -/

/-- C5: for every task whose lowercased form contains a keyword of an
always-RED category (category phrases split on `'/'`), `classify_risk`
returns RED and the stored reason names the (first) matching category; for
every task — the empty string included — matching no category keyword, no
red keyword and no yellow keyword, it returns GREEN with the default
reason.  `classifyRisk` is a total Lean function of the task and the two
static lists, so determinism and absence of exceptions hold by
construction. -/
theorem classifyRisk_category_red_and_default_green (task : Str) :
    ((∃ cat ∈ alwaysRedCategories,
        categoryMatches (pyLower task) cat = true) →
      (classifyRisk task).1 = RiskTier.RED ∧
      ∃ cat ∈ alwaysRedCategories,
        categoryMatches (pyLower task) cat = true ∧
        (classifyRisk task).2 = "Always Red category: ".toList ++ cat)
    ∧
    ((∀ cat ∈ alwaysRedCategories,
        categoryMatches (pyLower task) cat = false) →
     (∀ kw ∈ redKeywords, containsSub (pyLower task) kw = false) →
     (∀ kw ∈ yellowKeywords, containsSub (pyLower task) kw = false) →
      classifyRisk task =
        (RiskTier.GREEN,
         "No risk keywords detected - defaulting to Green".toList)) := by
  constructor
  · rintro ⟨cat, hmem, hmatch⟩
    cases hfind : alwaysRedCategories.find?
        (fun c => categoryMatches (pyLower task) c) with
    | none =>
      exfalso
      rw [List.find?_eq_none] at hfind
      exact absurd hmatch (by simpa using hfind cat hmem)
    | some c0 =>
      have hc0 : categoryMatches (pyLower task) c0 = true :=
        List.find?_some hfind
      have hc0mem : c0 ∈ alwaysRedCategories :=
        List.mem_of_find?_eq_some hfind
      refine ⟨?_, c0, hc0mem, hc0, ?_⟩ <;>
        simp [classifyRisk, hfind]
  · intro h1 h2 h3
    have f1 : alwaysRedCategories.find?
        (fun c => categoryMatches (pyLower task) c) = none :=
      List.find?_eq_none.mpr (fun x hx => by simp [h1 x hx])
    have f2 : firstMatchKeyword redKeywords (pyLower task) = none := by
      rw [firstMatchKeyword, List.find?_eq_none]
      intro x hx
      simp [h2 x hx]
    have f3 : firstMatchKeyword yellowKeywords (pyLower task) = none := by
      rw [firstMatchKeyword, List.find?_eq_none]
      intro x hx
      simp [h3 x hx]
    simp [classifyRisk, f1, f2, f3]

/-- Witness for C5 at concrete inputs: "apply rbac rules" matches the
category `auth/permissions/rbac`, and the empty task matches nothing. -/
theorem classifyRisk_category_red_and_default_green_witness :
    (classifyRisk "apply rbac rules".toList).1 = RiskTier.RED ∧
    classifyRisk "".toList =
      (RiskTier.GREEN,
       "No risk keywords detected - defaulting to Green".toList) :=
  ⟨((classifyRisk_category_red_and_default_green "apply rbac rules".toList).1
      ⟨"auth/permissions/rbac".toList, by decide, by decide⟩).1,
   (classifyRisk_category_red_and_default_green "".toList).2
      (by decide) (by decide) (by decide)⟩

/-- C7 counterexample: on the exact task "rotate database credentials" the
classifier does return RED, but no always-RED category keyword occurs in the
task ("secrets", "env" and "prod credentials" are all absent), so the stored
reason does *not* name the category `secrets/env/prod credentials`. -/
theorem classifyRisk_rotate_credentials_not_category :
    (classifyRisk "rotate database credentials".toList).1 = RiskTier.RED ∧
    (∀ cat ∈ alwaysRedCategories,
      categoryMatches (pyLower "rotate database credentials".toList) cat
        = false) ∧
    (classifyRisk "rotate database credentials".toList).2 ≠
      "Always Red category: secrets/env/prod credentials".toList := by
  refine ⟨by decide, ?_, by decide⟩
  decide

/-- C7 amended: "rotate database credentials" is classified RED, but via the
plain red-tier keyword list — the first matching keyword is "credential" —
not via an always-RED category. -/
theorem classifyRisk_rotate_credentials_amended :
    classifyRisk "rotate database credentials".toList =
      (RiskTier.RED, "Red-tier keyword detected: credential".toList) := by
  decide

/-! ## Theorems: permission gate (claims C4, C9) -/

/-- The check map is fully populated from the five gate functions in every
branch of `check_mcp_permissions`. -/
theorem checkMcpPermissions_checks (b : MCPBridge)
    (provider action riskTier role : Str) :
    (checkMcpPermissions b provider action riskTier role).checks =
      { mcpEnabled := isMcpEnabled b
        providerEnabled := isProviderEnabled b provider
        actionAllowed := isActionAllowed b provider action
        riskTierAllowed := checkRiskTier riskTier
        roleAllowed := checkRole provider action role } := by
  rw [checkMcpPermissions]
  repeat' split
  all_goals rfl

/-- `allowed` is `true` exactly when all five gates pass. -/
theorem checkMcpPermissions_allowed_iff (b : MCPBridge)
    (provider action riskTier role : Str) :
    (checkMcpPermissions b provider action riskTier role).allowed = true ↔
      (isMcpEnabled b = true ∧ isProviderEnabled b provider = true ∧
       isActionAllowed b provider action = true ∧
       checkRiskTier riskTier = true ∧
       checkRole provider action role = true) := by
  rw [checkMcpPermissions]
  cases h1 : isMcpEnabled b <;>
    cases h2 : isProviderEnabled b provider <;>
      cases h3 : isActionAllowed b provider action <;>
        cases h4 : checkRiskTier riskTier <;>
          cases h5 : checkRole provider action role <;> simp

/-- An uppercased RED tier always fails the tier gate. -/
theorem checkRiskTier_red {t : Str} (h : pyUpper t = "RED".toList) :
    checkRiskTier t = false := by
  simp [checkRiskTier, h]

/-- Uppercased GREEN or YELLOW tiers pass the tier gate. -/
theorem checkRiskTier_green_yellow {t : Str}
    (h : pyUpper t = "GREEN".toList ∨ pyUpper t = "YELLOW".toList) :
    checkRiskTier t = true := by
  rcases h with h | h <;> simp [checkRiskTier, h]

/-- The tier gate passes only for uppercased GREEN or YELLOW. -/
theorem checkRiskTier_true_cases {t : Str} (h : checkRiskTier t = true) :
    pyUpper t = "GREEN".toList ∨ pyUpper t = "YELLOW".toList := by
  by_contra hcon
  push_neg at hcon
  rw [checkRiskTier] at h
  split at h
  · exact absurd h (by simp)
  · rcases Bool.or_eq_true_iff.mp h with h1 | h1
    · exact hcon.1 (by simpa using h1)
    · exact hcon.2 (by simpa using h1)

/-- C4: with risk tier RED in any letter case the permission check denies and
reports the tier gate false in the returned check map, while GREEN and
YELLOW (any case) pass the tier gate; the five gates are evaluated in strict
precedence (capability → provider → action → tier → role) and the reported
reason names the first failing gate. -/
theorem checkMcpPermissions_tier_and_precedence (b : MCPBridge)
    (provider action riskTier role : Str) (res : PermissionResult)
    (hres : res = checkMcpPermissions b provider action riskTier role) :
    (pyUpper riskTier = "RED".toList →
      res.allowed = false ∧ res.checks.riskTierAllowed = false)
    ∧ (pyUpper riskTier = "GREEN".toList ∨ pyUpper riskTier = "YELLOW".toList →
      res.checks.riskTierAllowed = true)
    ∧ (res.checks.mcpEnabled = false →
      res.reason = "MCP integration not enabled".toList)
    ∧ (res.checks.mcpEnabled = true → res.checks.providerEnabled = false →
      res.reason = "Provider ".toList ++ provider ++ " not enabled".toList)
    ∧ (res.checks.mcpEnabled = true → res.checks.providerEnabled = true →
      res.checks.actionAllowed = false →
      res.reason = "Action ".toList ++ action
        ++ " not allowlisted for provider ".toList ++ provider)
    ∧ (res.checks.mcpEnabled = true → res.checks.providerEnabled = true →
      res.checks.actionAllowed = true → res.checks.riskTierAllowed = false →
      res.reason = "Risk tier ".toList ++ riskTier
        ++ " not allowed for MCP operations".toList)
    ∧ (res.checks.mcpEnabled = true → res.checks.providerEnabled = true →
      res.checks.actionAllowed = true → res.checks.riskTierAllowed = true →
      res.checks.roleAllowed = false →
      res.reason = "Role ".toList ++ role ++ " not allowed for ".toList
        ++ provider ++ ":".toList ++ action)
    ∧ (res.allowed = true ↔
      (res.checks.mcpEnabled = true ∧ res.checks.providerEnabled = true ∧
       res.checks.actionAllowed = true ∧ res.checks.riskTierAllowed = true ∧
       res.checks.roleAllowed = true)) := by
  subst hres
  rw [checkMcpPermissions_checks b provider action riskTier role]
  rw [checkMcpPermissions]
  cases h1 : isMcpEnabled b <;>
    cases h2 : isProviderEnabled b provider <;>
      cases h3 : isActionAllowed b provider action <;>
        cases h4 : checkRiskTier riskTier <;>
          cases h5 : checkRole provider action role <;>
    refine ⟨fun hred => ?_, fun hgy => ?_, ?_, ?_, ?_, ?_, ?_, ?_⟩ <;>
    simp_all [checkRiskTier_red, checkRiskTier_green_yellow]

/-- Witness for C4 at a concrete loaded bridge with tier "red" (lower case). -/
theorem checkMcpPermissions_tier_and_precedence_witness :
    pyUpper "red".toList = "RED".toList ∧
    (checkMcpPermissions sampleBridge "github".toList "list_issues".toList
        "red".toList "planner".toList).allowed = false ∧
    (checkMcpPermissions sampleBridge "github".toList "list_issues".toList
        "red".toList "planner".toList).checks.riskTierAllowed = false :=
  ⟨by decide,
   (checkMcpPermissions_tier_and_precedence sampleBridge "github".toList
      "list_issues".toList "red".toList "planner".toList _ rfl).1 (by decide)⟩

/-- C9: the permission check fails closed on unknown inputs — any tier that
is not (case-insensitively) GREEN or YELLOW fails the tier gate and forces
`allowed = false`, and any provider outside the fixed role-eligibility table
fails the role gate for every role and forces `allowed = false`. -/
theorem checkMcpPermissions_fails_closed (b : MCPBridge)
    (provider action riskTier role : Str) (res : PermissionResult)
    (hres : res = checkMcpPermissions b provider action riskTier role) :
    (pyUpper riskTier ≠ "GREEN".toList → pyUpper riskTier ≠ "YELLOW".toList →
      res.allowed = false ∧ res.checks.riskTierAllowed = false)
    ∧ (alookup providerRoleRules provider = none →
      (∀ r2 : Str, checkRole provider action r2 = false)
        ∧ res.allowed = false) := by
  subst hres
  constructor
  · intro hg hy
    have ht : checkRiskTier riskTier = false := by
      cases h : checkRiskTier riskTier
      · rfl
      · rcases checkRiskTier_true_cases h with hc | hc
        · exact absurd hc hg
        · exact absurd hc hy
    constructor
    · cases hall : (checkMcpPermissions b provider action riskTier role).allowed
      · rfl
      · have hiff := (checkMcpPermissions_allowed_iff b provider action
          riskTier role).mp hall
        exact absurd hiff.2.2.2.1 (by simp [ht])
    · simp [checkMcpPermissions_checks, ht]
  · intro hnone
    have hrole : ∀ r2 : Str, checkRole provider action r2 = false := by
      intro r2
      simp [checkRole, hnone]
    refine ⟨hrole, ?_⟩
    cases hall : (checkMcpPermissions b provider action riskTier role).allowed
    · rfl
    · have hiff := (checkMcpPermissions_allowed_iff b provider action
        riskTier role).mp hall
      exact absurd hiff.2.2.2.2 (by simp [hrole role])

/-- Witness for C9: the unknown tier "PURPLE" and the unknown provider
"customtool" are both denied. -/
theorem checkMcpPermissions_fails_closed_witness :
    ((checkMcpPermissions sampleBridge "github".toList "list_issues".toList
        "PURPLE".toList "planner".toList).allowed = false)
    ∧ (checkRole "customtool".toList "list_issues".toList "planner".toList
        = false)
    ∧ ((checkMcpPermissions sampleBridge "customtool".toList
        "list_issues".toList "green".toList "planner".toList).allowed
        = false) :=
  ⟨((checkMcpPermissions_fails_closed sampleBridge "github".toList
      "list_issues".toList "PURPLE".toList "planner".toList _ rfl).1
      (by decide) (by decide)).1,
   ((checkMcpPermissions_fails_closed sampleBridge "customtool".toList
      "list_issues".toList "green".toList "planner".toList _ rfl).2
      (by decide)).1 "planner".toList,
   ((checkMcpPermissions_fails_closed sampleBridge "customtool".toList
      "list_issues".toList "green".toList "planner".toList _ rfl).2
      (by decide)).2⟩

/-! ## Theorems: configuration validation (claim C3) -/

/-- C3 counterexample: a configuration in which `github` and `playwright`
each declare an out-of-catalog action.  Loading collects only the github
violation; the playwright violation — which `_validate_provider` would
report on its own — never reaches the load-error list, so the registry does
not collect *every* violation. -/
theorem validateConfig_first_violation_only :
    validateConfig (fun _ => true) twoViolationConfig
      = (false,
         ["Provider github: invalid action \x27bogus_github_action\x27".toList])
    ∧ validateProvider (fun _ => true) "playwright".toList
        (.jobj [ ("enabled".toList, .jbool true),
                 ("actions".toList, .jarr [.jstr "bogus_pw_action".toList]) ])
      = some "Provider playwright: invalid action \x27bogus_pw_action\x27".toList
    ∧ "Provider playwright: invalid action \x27bogus_pw_action\x27".toList
        ∉ (validateConfig (fun _ => true) twoViolationConfig).2 := by
  refine ⟨by decide, by decide, by decide⟩

/-- The provider loop stops at the first failing provider with exactly one
collected message. -/
theorem validateProviders_single_error (cmdAvailable : Str → Bool)
    (ps : List (Str × JVal)) :
    validateProviders cmdAvailable ps = (true, []) ∨
      ∃ e, validateProviders cmdAvailable ps = (false, [e]) := by
  induction ps with
  | nil => exact Or.inl rfl
  | cons hd tl ih =>
    rw [validateProviders]
    cases hv : validateProvider cmdAvailable hd.1 hd.2 with
    | some err => exact Or.inr ⟨err, rfl⟩
    | none => simpa using ih

/-- C3 amended: the loader does not collect every violation — validation
stops at the first violation it encounters, so a load over a document with
violations leaves exactly one message in the load-error list (and a clean
document leaves none); any violation still marks the registry unloaded. -/
theorem validateConfig_stops_at_first (cmdAvailable : Str → Bool)
    (config : List (Str × JVal)) :
    ((validateConfig cmdAvailable config).1 = true →
      (validateConfig cmdAvailable config).2 = [])
    ∧ ((validateConfig cmdAvailable config).1 = false →
      ∃ e, (validateConfig cmdAvailable config).2 = [e])
    ∧ ((validateConfig cmdAvailable config).1 = false →
      (loadConfigOutcome cmdAvailable config).1 = false) := by
  have hmain :
      validateConfig cmdAvailable config
          = (true, ([] : List Str))
      ∨ ∃ e, validateConfig cmdAvailable config = (false, [e]) := by
    rw [validateConfig]
    cases hg : jget config ("enabled".toList) with
    | none => exact Or.inr ⟨_, rfl⟩
    | some v =>
      cases v with
      | jbool en =>
        cases en with
        | false => exact Or.inl rfl
        | true =>
          cases hp : jget config ("providers".toList) with
          | none => exact Or.inr ⟨_, rfl⟩
          | some pv =>
            cases pv with
            | jobj ps =>
              rcases validateProviders_single_error cmdAvailable ps
                with hv | ⟨e, hv⟩
              · exact Or.inl hv
              · exact Or.inr ⟨e, hv⟩
            | jbool b2 => exact Or.inr ⟨_, rfl⟩
            | jstr s2 => exact Or.inr ⟨_, rfl⟩
            | jnum n2 => exact Or.inr ⟨_, rfl⟩
            | jarr a2 => exact Or.inr ⟨_, rfl⟩
            | jnull => exact Or.inr ⟨_, rfl⟩
      | jstr s2 => exact Or.inr ⟨_, rfl⟩
      | jnum n2 => exact Or.inr ⟨_, rfl⟩
      | jarr a2 => exact Or.inr ⟨_, rfl⟩
      | jobj o2 => exact Or.inr ⟨_, rfl⟩
      | jnull => exact Or.inr ⟨_, rfl⟩
  refine ⟨?_, ?_, ?_⟩ <;> intro h
  · rcases hmain with heq | ⟨e, heq⟩
    · rw [heq]
    · rw [heq] at h
      exact absurd h (by simp)
  · rcases hmain with heq | ⟨e, heq⟩
    · rw [heq] at h
      exact absurd h (by simp)
    · exact ⟨e, by rw [heq]⟩
  · rw [loadConfigOutcome]
    exact h

/-- Witness for the amended C3 at the two-violation configuration. -/
theorem validateConfig_stops_at_first_witness :
    ∃ e, (validateConfig (fun _ => true) twoViolationConfig).2 = [e] :=
  (validateConfig_stops_at_first (fun _ => true) twoViolationConfig).2.1
    (by decide)

/-! ## Theorems: autonomous decision (claim C6) -/

/-- C6 counterexample: the task "hello" is GREEN, its appropriateness is
MAYBE_APPROPRIATE (so not APPROPRIATE), and no relevant local tool is
available — the claimed behaviour is `block_safe` — yet with readiness RED
the decision is `block_unsafe`: the appropriateness branch only returns
`block_safe` for NOT_APPROPRIATE, and MAYBE_APPROPRIATE without local tools
falls through to the readiness check. -/
theorem executeAutoMcpDecision_maybe_fallthrough :
    (classifyRisk "hello".toList).1 = RiskTier.GREEN
    ∧ (determineMcpAppropriateness "hello".toList RiskTier.GREEN).1
        = MCPAppropriateness.MAYBE_APPROPRIATE
    ∧ checkLocalToolsAvailability "hello".toList = false
    ∧ (executeAutoMcpDecision ⟨none⟩ "hello".toList "RED".toList
        sampleBridge).decision = "block_unsafe".toList
    ∧ "block_unsafe".toList ≠ "block_safe".toList := by
  refine ⟨by decide, by decide, by decide, by decide, by decide⟩

/-- A provider keyword match makes the appropriateness APPROPRIATE for a
GREEN tier. -/
theorem appropriate_of_provider_kw {task : Str} (kw : Str)
    (hkw : ∃ pk ∈ PROVIDER_KEYWORDS, kw ∈ pk.2)
    (hsub : containsSub (pyLower task) kw = true) :
    (determineMcpAppropriateness task RiskTier.GREEN).1
      = MCPAppropriateness.APPROPRIATE := by
  obtain ⟨pk, hmem, hkpk⟩ := hkw
  have hany : pk.2.any (fun k => containsSub (pyLower task) k) = true :=
    List.any_eq_true.mpr ⟨kw, hkpk, hsub⟩
  have hmf : pk ∈ PROVIDER_KEYWORDS.filter
      (fun q => q.2.any (fun k => containsSub (pyLower task) k)) :=
    List.mem_filter.mpr ⟨hmem, hany⟩
  have hne : (PROVIDER_KEYWORDS.filter
      (fun q => q.2.any (fun k => containsSub (pyLower task) k))).map
        Prod.fst ≠ [] :=
    List.ne_nil_of_mem (List.mem_map_of_mem Prod.fst hmf)
  rw [determineMcpAppropriateness]
  simp only [List.isEmpty_iff]
  simp [hne]

/-- Every "relevant local tool" provider name is itself a provider keyword,
so availability of a local tool forces APPROPRIATE. -/
theorem localTools_imp_appropriate (task : Str)
    (h : checkLocalToolsAvailability task = true) :
    (determineMcpAppropriateness task RiskTier.GREEN).1
      = MCPAppropriateness.APPROPRIATE := by
  rw [checkLocalToolsAvailability, List.any_eq_true] at h
  obtain ⟨p, hp, hsub⟩ := h
  simp only [localToolProviders, List.mem_cons, List.not_mem_nil, or_false]
    at hp
  rcases hp with rfl | rfl | rfl | rfl | rfl
  · exact appropriate_of_provider_kw "github".toList (by decide) hsub
  · exact appropriate_of_provider_kw "context7".toList (by decide) hsub
  · exact appropriate_of_provider_kw "playwright".toList (by decide) hsub
  · exact appropriate_of_provider_kw "security".toList (by decide) hsub
  · exact appropriate_of_provider_kw "docker".toList (by decide) hsub

/-- MAYBE_APPROPRIATE means no provider keyword matched, so the suggestion
pass produces no suggestion either. -/
theorem suggestions_nil_of_maybe (sel : MCPSelector) (task : Str)
    (tier : RiskTier)
    (h : (determineMcpAppropriateness task RiskTier.GREEN).1
      = MCPAppropriateness.MAYBE_APPROPRIATE) :
    getProviderSuggestions sel task tier = [] := by
  have hnokw : ∀ pk ∈ PROVIDER_KEYWORDS,
      pk.2.any (fun k => containsSub (pyLower task) k) = false := by
    intro pk hmem
    cases hval : pk.2.any (fun k => containsSub (pyLower task) k)
    · rfl
    · obtain ⟨kw, hkw, hs⟩ := List.any_eq_true.mp hval
      rw [appropriate_of_provider_kw kw ⟨pk, hmem, hkw⟩ hs] at h
      exact absurd h (by simp)
  rw [getProviderSuggestions]
  cases sel.bridge with
  | none => rfl
  | some br =>
    simp only
    cases hen : isMcpEnabled br with
    | false => simp
    | true =>
      rw [if_neg (by simp)]
      rw [List.filterMap_eq_nil_iff]
      intro name hname
      have hkempty : ((alookup PROVIDER_KEYWORDS name).getD []).filter
          (fun kw => containsSub (pyLower task) kw) = [] := by
        cases hlk : alookup PROVIDER_KEYWORDS name with
        | none => simp
        | some kws =>
          rw [alookup] at hlk
          cases hfind : PROVIDER_KEYWORDS.find?
              (fun kv => decide (kv.1 = name)) with
          | none => rw [hfind] at hlk; exact absurd hlk (by simp)
          | some pk =>
            rw [hfind] at hlk
            have hmem := List.mem_of_find?_eq_some hfind
            have hpk2 : pk.2 = kws := by simpa using hlk
            have hall := hnokw pk hmem
            rw [List.any_eq_false] at hall
            simp only [Option.getD_some]
            rw [List.filter_eq_nil_iff]
            intro kw hkw
            rw [hpk2] at hall
            simp [hall kw hkw]
      simp [hkempty]

/-- C6 amended: for a GREEN-tier task the appropriateness computed by
`_determine_mcp_appropriateness` is never NOT_APPROPRIATE (that value only
arises for RED tiers), and local-tool availability implies APPROPRIATE, so
the claimed `use_local_tools`/`block_safe` branch is unreachable for
non-APPROPRIATE GREEN tasks; a MAYBE_APPROPRIATE task (necessarily without
local tools) falls through the appropriateness branch: with readiness RED
the decision is `block_unsafe`, and with any other readiness it is
`block_safe` (no provider suggestions exist for it). -/
theorem executeAutoMcpDecision_appropriateness_branch (sel : MCPSelector)
    (task readinessStatus : Str) (mcpBridge : MCPBridge)
    (hTier : (classifyRisk task).1 = RiskTier.GREEN) :
    ((determineMcpAppropriateness task RiskTier.GREEN).1
        ≠ MCPAppropriateness.NOT_APPROPRIATE)
    ∧ (checkLocalToolsAvailability task = true →
      (determineMcpAppropriateness task RiskTier.GREEN).1
        = MCPAppropriateness.APPROPRIATE)
    ∧ ((determineMcpAppropriateness task RiskTier.GREEN).1
        = MCPAppropriateness.MAYBE_APPROPRIATE →
      readinessStatus = "RED".toList →
      (executeAutoMcpDecision sel task readinessStatus mcpBridge).decision
        = "block_unsafe".toList)
    ∧ ((determineMcpAppropriateness task RiskTier.GREEN).1
        = MCPAppropriateness.MAYBE_APPROPRIATE →
      readinessStatus ≠ "RED".toList →
      (executeAutoMcpDecision sel task readinessStatus mcpBridge).decision
        = "block_safe".toList) := by
  refine ⟨?_, localTools_imp_appropriate task, ?_, ?_⟩
  · rw [determineMcpAppropriateness]
    simp only
    split
    · simp_all
    · split <;> simp
  · intro happ hred
    have hloc : checkLocalToolsAvailability task = false := by
      cases hl : checkLocalToolsAvailability task
      · rfl
      · rw [localTools_imp_appropriate task hl] at happ
        exact absurd happ (by simp)
    rw [executeAutoMcpDecision, hTier]
    simp [happ, hloc, hred]
  · intro happ hred
    have hloc : checkLocalToolsAvailability task = false := by
      cases hl : checkLocalToolsAvailability task
      · rfl
      · rw [localTools_imp_appropriate task hl] at happ
        exact absurd happ (by simp)
    have hsug := suggestions_nil_of_maybe sel task RiskTier.GREEN happ
    have hred2 : (readinessStatus = "RED".toList) ↔ False :=
      iff_false_intro hred
    have hred3 : (readinessStatus = ['R', 'E', 'D']) ↔ False :=
      iff_false_intro hred
    rw [executeAutoMcpDecision, hTier]
    simp [happ, hloc, hsug, hred2, hred3]

/-- Witness for the amended C6: the GREEN task "hello" is MAYBE appropriate
with no local tool; readiness RED blocks unsafe, readiness GREEN blocks
safe; and "check docker logs" has a local tool, forcing APPROPRIATE. -/
theorem executeAutoMcpDecision_appropriateness_branch_witness :
    (executeAutoMcpDecision ⟨none⟩ "hello".toList "RED".toList
        sampleBridge).decision = "block_unsafe".toList
    ∧ (executeAutoMcpDecision ⟨none⟩ "hello".toList "GREEN".toList
        sampleBridge).decision = "block_safe".toList
    ∧ (determineMcpAppropriateness "look at the docker image".toList
        RiskTier.GREEN).1 = MCPAppropriateness.APPROPRIATE :=
  ⟨(executeAutoMcpDecision_appropriateness_branch ⟨none⟩ "hello".toList
      "RED".toList sampleBridge (by decide)).2.2.1 (by decide) (by decide),
   (executeAutoMcpDecision_appropriateness_branch ⟨none⟩ "hello".toList
      "GREEN".toList sampleBridge (by decide)).2.2.2 (by decide) (by decide),
   (executeAutoMcpDecision_appropriateness_branch ⟨none⟩
      "look at the docker image".toList "GREEN".toList sampleBridge
      (by decide)).2.1 (by decide)⟩

/-! ## Theorems: evidence logging (claim C10) -/

/-- C10: with an active session, `log_event` never raises on a file-system
failure and always returns the computed evidence filename; when the
underlying write fails, the failure is only reported on stderr, no evidence
file is created, and the very same filename is still returned. -/
theorem logEvent_swallows_write_failure (logger : EvidenceLogger)
    (timestamp eventType : Str) (writeFailure : Option Str) (sid : Str)
    (hs : logger.currentSessionId = some sid) :
    logEvent logger timestamp eventType writeFailure
      = .ok (writeEvidenceFile logger timestamp eventType writeFailure)
    ∧ (writeEvidenceFile logger timestamp eventType writeFailure).filename
      = timestamp ++ "_".toList ++ sid ++ "_".toList ++ eventType
          ++ ".json".toList
    ∧ (∀ excMsg, writeFailure = some excMsg →
      (writeEvidenceFile logger timestamp eventType writeFailure).fileCreated
          = false
      ∧ (writeEvidenceFile logger timestamp eventType
          writeFailure).stderrLines ≠ [])
    ∧ (writeEvidenceFile logger timestamp eventType writeFailure).filename
      = (writeEvidenceFile logger timestamp eventType none).filename := by
  refine ⟨?_, ?_, ?_, ?_⟩
  · rw [logEvent, hs]
  · cases writeFailure <;> simp [writeEvidenceFile, hs]
  · intro excMsg hw
    subst hw
    simp [writeEvidenceFile, hs]
  · cases writeFailure <;> simp [writeEvidenceFile, hs]

/-- Witness for C10: a failing write under an active session still returns
the timestamped filename. -/
theorem logEvent_swallows_write_failure_witness :
    logEvent ⟨some "abcd1234".toList⟩ "20260101_010101".toList
        "risk_classification".toList (some "disk full".toList)
      = .ok (writeEvidenceFile ⟨some "abcd1234".toList⟩
          "20260101_010101".toList "risk_classification".toList
          (some "disk full".toList))
    ∧ (writeEvidenceFile ⟨some "abcd1234".toList⟩ "20260101_010101".toList
        "risk_classification".toList (some "disk full".toList)).filename
      = "20260101_010101_abcd1234_risk_classification.json".toList :=
  ⟨(logEvent_swallows_write_failure ⟨some "abcd1234".toList⟩
      "20260101_010101".toList "risk_classification".toList
      (some "disk full".toList) "abcd1234".toList rfl).1,
   by
    rw [(logEvent_swallows_write_failure ⟨some "abcd1234".toList⟩
      "20260101_010101".toList "risk_classification".toList
      (some "disk full".toList) "abcd1234".toList rfl).2.1]
    decide⟩

/-! ## Theorems: durable memory persistence (claims C1, C2) -/

/-- The default `memory_dir`. -/
def memDirM : Str := "agent_runtime/memory".toList

/-- Environment observed by a first store call. -/
def storeEnvA : StoreEnv :=
  ⟨true, "20260101_010101".toList, "aaaaaaaa".toList,
   "2026-01-01T01:01:01".toList⟩

/-- Environment observed by a second store call. -/
def storeEnvB : StoreEnv :=
  ⟨true, "20260102_020202".toList, "bbbbbbbb".toList,
   "2026-01-02T02:02:02".toList⟩

/-- A benign, fully valid memory record. -/
def recA : List (Str × PyVal) :=
  [ ("id".toList, .pstr "r1".toList),
    ("type".toList, .pstr "decision".toList),
    ("summary".toList, .pstr "first record".toList),
    ("sources".toList, .plist []),
    ("date".toList, .pstr "2026-01-01".toList),
    ("tags".toList, .plist [.pstr "alpha".toList]) ]

/-- A second benign, fully valid memory record. -/
def recB : List (Str × PyVal) :=
  [ ("id".toList, .pstr "r2".toList),
    ("type".toList, .pstr "decision".toList),
    ("summary".toList, .pstr "second record".toList),
    ("sources".toList, .plist []),
    ("date".toList, .pstr "2026-01-02".toList),
    ("tags".toList, .plist [.pstr "beta".toList]) ]

/-- Whether an `Except` is the success case. -/
def exceptOk {α β : Type} : Except α β → Bool
  | .ok _ => true
  | .error _ => false

/-- The file system produced by a successful `storeLocal`. -/
def storeFsOf (r : Except Str (FileSys × Str × Str)) : FileSys :=
  match r with
  | .ok (fs, _, _) => fs
  | .error _ => []

/-- The record file path produced by a successful `storeLocal`. -/
def storePathOf (r : Except Str (FileSys × Str × Str)) : Str :=
  match r with
  | .ok (_, p, _) => p
  | .error _ => []

/-- The index line produced by a successful `storeLocal`. -/
def storeLineOf (r : Except Str (FileSys × Str × Str)) : Str :=
  match r with
  | .ok (_, _, line) => line
  | .error _ => []

/-- The file system after the first store of the C1 scenario. -/
def fs1C1 : FileSys := storeFsOf (storeLocal memDirM storeEnvA [] recA)

set_option maxRecDepth 40000 in
/-- C1: two successful stores, starting from an empty directory.  After the
second store the index file holds only the second store's line: the first
line (which cites the first record's file path) has been rewritten away,
because `_store_local` "appends" to the index with `_write_atomic`, whose
rename replaces `INDEX.jsonl` wholesale.  This contradicts the module's own
documentation ("Append-only index: Audit trail cannot be silently
deleted"). -/
theorem storeLocal_index_not_append_only :
    exceptOk (storeLocal memDirM storeEnvA [] recA) = true
    ∧ exceptOk (storeLocal memDirM storeEnvB fs1C1 recB) = true
    ∧ getFile fs1C1 (indexFilePath memDirM)
        = some (storeLineOf (storeLocal memDirM storeEnvA [] recA))
    ∧ getFile (storeFsOf (storeLocal memDirM storeEnvB fs1C1 recB))
        (indexFilePath memDirM)
        = some (storeLineOf (storeLocal memDirM storeEnvB fs1C1 recB))
    ∧ storeLineOf (storeLocal memDirM storeEnvA [] recA)
        ≠ storeLineOf (storeLocal memDirM storeEnvB fs1C1 recB)
    ∧ containsSub (storeLineOf (storeLocal memDirM storeEnvB fs1C1 recB))
        (storePathOf (storeLocal memDirM storeEnvA [] recA)) = false := by
  decide

/-- A valid record carrying a secret-shaped tag. -/
def secretRec : List (Str × PyVal) :=
  [ ("id".toList, .pstr "r9".toList),
    ("type".toList, .pstr "finding".toList),
    ("summary".toList, .pstr "benign summary".toList),
    ("sources".toList, .plist []),
    ("date".toList, .pstr "2026-01-03".toList),
    ("tags".toList, .plist [.pstr "DEMO_API_KEY".toList]) ]

/-- The file system produced by a successful `storeMemory`. -/
def memFsOf (r : Except Str (FileSys × StoreResult)) : FileSys :=
  match r with
  | .ok (fs, _) => fs
  | .error _ => []

/-- The result produced by a successful `storeMemory`. -/
def memResOf (r : Except Str (FileSys × StoreResult)) : Option StoreResult :=
  match r with
  | .ok (_, res) => some res
  | .error _ => none

/-- The outcome of storing `secretRec`. -/
def secretStoreOutcome : Except Str (FileSys × StoreResult) :=
  storeMemory memDirM storeEnvA false [] secretRec none

/-- The record file path of the C2 scenario. -/
def secretRecPath : Str :=
  memDirM ++ "/".toList ++ storeEnvA.nameStamp ++ "_".toList
    ++ storeEnvA.uid8 ++ ".json".toList

set_option maxRecDepth 40000 in
/-- C2: a record whose `tags` list carries the secret-shaped identifier
`DEMO_API_KEY` is accepted by `store_memory`; the per-record JSON file is
redacted (it contains `[REDACTED:KEY]` and not the secret), but the index
entry takes `tags` from the *raw* record (`_store_local` line 231), so the
persisted index file contains the literal secret. -/
theorem storeMemory_index_leaks_tag_secret :
    exceptOk secretStoreOutcome = true
    ∧ (memResOf secretStoreOutcome).map StoreResult.localPath
        = some (some secretRecPath)
    ∧ containsSub ((getFile (memFsOf secretStoreOutcome)
        secretRecPath).getD []) "DEMO_API_KEY".toList = false
    ∧ containsSub ((getFile (memFsOf secretStoreOutcome)
        secretRecPath).getD []) "[REDACTED:KEY]".toList = true
    ∧ containsSub ((getFile (memFsOf secretStoreOutcome)
        (indexFilePath memDirM)).getD []) "DEMO_API_KEY".toList = true := by
  decide

/-! ## Theorems: stdio output redaction (claim C8)

`_redact` replaces each sensitive value by the fixed marker `[redacted]`.
A value that overlaps the marker text itself (for instance the value
`"red"`, a substring of the marker) survives replacement, so the claim as
stated fails; for values that share nothing with the marker — no `[`, no
`]`, not a substring of `redacted` — absence after redaction is proved. -/

/-- A sensitive value that cannot be reintroduced by inserting the marker:
non-empty, bracket-free, and not a substring of the marker interior. -/
abbrev CleanSecret (v : Str) : Prop :=
  v ≠ [] ∧ '[' ∉ v ∧ ']' ∉ v ∧ ¬ v <:+: redactedInner

/-- Splitting the marker off the front of a concatenation. -/
theorem redactMarker_cons (X : Str) :
    redactMarker ++ X = '[' :: (redactedInner ++ (']' :: X)) := rfl

/-- A prefix that avoids the character `c` cannot reach past `c`. -/
theorem prefix_of_prefix_append_cons {c : Char} (l ys : Str) :
    ∀ v : Str, c ∉ v → v <+: l ++ c :: ys → v <+: l := by
  induction l with
  | nil =>
    intro v hc h
    cases v with
    | nil => exact List.nil_prefix
    | cons a vt =>
      rw [List.nil_append] at h
      rcases List.cons_prefix_cons.mp h with ⟨rfl, _⟩
      exact absurd (List.mem_cons_self a vt) hc
  | cons x xt ih =>
    intro v hc h
    cases v with
    | nil => exact List.nil_prefix
    | cons a vt =>
      rw [List.cons_append] at h
      rcases List.cons_prefix_cons.mp h with ⟨rfl, hvt⟩
      exact List.cons_prefix_cons.mpr
        ⟨rfl, ih vt (fun hm => hc (List.mem_cons_of_mem a hm)) hvt⟩

/-- An occurrence that avoids `c` lies on one side of it. -/
theorem infix_split_at_char {c : Char} (xs ys : Str) :
    ∀ v : Str, c ∉ v → v ≠ [] → v <:+: xs ++ c :: ys →
      v <:+: xs ∨ v <:+: ys := by
  induction xs with
  | nil =>
    intro v hc hv h
    rw [List.nil_append] at h
    rcases List.infix_cons_iff.mp h with hpre | hinf
    · cases v with
      | nil => exact absurd rfl hv
      | cons a vt =>
        rcases List.cons_prefix_cons.mp hpre with ⟨rfl, _⟩
        exact absurd (List.mem_cons_self a vt) hc
    · exact Or.inr hinf
  | cons x xt ih =>
    intro v hc hv h
    rw [List.cons_append] at h
    rcases List.infix_cons_iff.mp h with hpre | hinf
    · left
      have hp2 : v <+: x :: xt :=
        prefix_of_prefix_append_cons (x :: xt) ys v hc
          (by rw [List.cons_append]; exact hpre)
      exact hp2.isInfix
    · rcases ih v hc hv hinf with h1 | h2
      · exact Or.inl (h1.trans (List.suffix_cons x xt).isInfix)
      · exact Or.inr h2

/-- A clean secret occurring after a marker insertion occurs after it. -/
theorem clean_infix_marker_append {v : Str} (hv : CleanSecret v) {r : Str}
    (h : v <:+: redactMarker ++ r) : v <:+: r := by
  obtain ⟨hne, hob, hcb, hinn⟩ := hv
  rw [redactMarker_cons] at h
  rcases infix_split_at_char [] (redactedInner ++ (']' :: r)) v hob hne
      (by simpa using h) with h0 | h1
  · exact absurd (List.eq_nil_of_infix_nil h0) hne
  · rcases infix_split_at_char redactedInner r v hcb hne h1 with h2 | h3
    · exact absurd h2 hinn
    · exact h3

/-- A non-empty bracket-free prefix of a redacted text is a prefix of the
original text (the scan only inserts `[`-initial markers). -/
theorem prefix_of_replaceAllGo (pat : Str) :
    ∀ (fuel : Nat) (s w : Str), w ≠ [] → '[' ∉ w →
      w <+: replaceAllGo pat redactMarker fuel s → w <+: s := by
  intro fuel
  induction fuel with
  | zero =>
    intro s w hw hb h
    cases s with
    | nil => exact absurd (List.prefix_nil.mp h) hw
    | cons c rest => exact h
  | succ fuel ih =>
    intro s w hw hb h
    cases s with
    | nil => exact absurd (List.prefix_nil.mp h) hw
    | cons c rest =>
      rw [replaceAllGo] at h
      by_cases hp : pat.isPrefixOf (c :: rest) = true ∧ pat ≠ []
      · rw [if_pos hp, redactMarker_cons] at h
        cases w with
        | nil => exact absurd rfl hw
        | cons a wt =>
          rcases List.cons_prefix_cons.mp h with ⟨rfl, _⟩
          exact absurd (List.mem_cons_self _ _) hb
      · rw [if_neg hp] at h
        cases w with
        | nil => exact absurd rfl hw
        | cons a wt =>
          rcases List.cons_prefix_cons.mp h with ⟨rfl, hwt⟩
          refine List.cons_prefix_cons.mpr ⟨rfl, ?_⟩
          by_cases hwtnil : wt = []
          · subst hwtnil
            exact List.nil_prefix
          · exact ih rest wt hwtnil
              (fun hm => hb (List.mem_cons_of_mem a hm)) hwt

/-- After replacing a clean secret by the marker, the secret is gone. -/
theorem not_infix_replaceAllGo_self {v : Str} (hv : CleanSecret v) :
    ∀ (fuel : Nat) (s : Str), s.length ≤ fuel →
      ¬ v <:+: replaceAllGo v redactMarker fuel s := by
  intro fuel
  induction fuel with
  | zero =>
    intro s hs
    have hnil : s = [] := List.length_eq_zero.mp (Nat.le_zero.mp hs)
    subst hnil
    intro hcon
    exact absurd (List.eq_nil_of_infix_nil hcon) hv.1
  | succ fuel ih =>
    intro s hs
    cases s with
    | nil =>
      intro hcon
      exact absurd (List.eq_nil_of_infix_nil hcon) hv.1
    | cons c rest =>
      rw [replaceAllGo]
      by_cases hp : v.isPrefixOf (c :: rest) = true ∧ v ≠ []
      · rw [if_pos hp]
        intro hcon
        have h2 := clean_infix_marker_append hv hcon
        have hlen : (rest.drop (v.length - 1)).length ≤ fuel := by
          have := List.length_drop (v.length - 1) rest
          simp only [List.length_cons] at hs
          omega
        exact ih (rest.drop (v.length - 1)) hlen h2
      · rw [if_neg hp]
        intro hcon
        rcases List.infix_cons_iff.mp hcon with hpre | hinf
        · have hres : (c :: replaceAllGo v redactMarker fuel rest)
              = replaceAllGo v redactMarker (fuel + 1) (c :: rest) := by
            rw [replaceAllGo, if_neg hp]
          rw [hres] at hpre
          have hvp := prefix_of_replaceAllGo v (fuel + 1) (c :: rest) v
            hv.1 hv.2.1 hpre
          exact hp ⟨List.isPrefixOf_iff_prefix.mpr hvp, hv.1⟩
        · exact ih rest (by simp only [List.length_cons] at hs; omega) hinf

/-- Replacing anything by the marker never introduces a clean secret. -/
theorem not_infix_replaceAllGo_of_not_infix {v : Str} (hv : CleanSecret v)
    (pat : Str) :
    ∀ (fuel : Nat) (s : Str), s.length ≤ fuel → ¬ v <:+: s →
      ¬ v <:+: replaceAllGo pat redactMarker fuel s := by
  intro fuel
  induction fuel with
  | zero =>
    intro s hs hns
    have hnil : s = [] := List.length_eq_zero.mp (Nat.le_zero.mp hs)
    subst hnil
    intro hcon
    exact absurd (List.eq_nil_of_infix_nil hcon) hv.1
  | succ fuel ih =>
    intro s hs hns
    cases s with
    | nil =>
      intro hcon
      exact absurd (List.eq_nil_of_infix_nil hcon) hv.1
    | cons c rest =>
      rw [replaceAllGo]
      have hnrest : ¬ v <:+: rest :=
        fun hx => hns (hx.trans (List.suffix_cons c rest).isInfix)
      by_cases hp : pat.isPrefixOf (c :: rest) = true ∧ pat ≠ []
      · rw [if_pos hp]
        intro hcon
        have h2 := clean_infix_marker_append hv hcon
        have hnd : ¬ v <:+: rest.drop (pat.length - 1) :=
          fun hx => hnrest (hx.trans (List.drop_suffix _ rest).isInfix)
        have hlen : (rest.drop (pat.length - 1)).length ≤ fuel := by
          have := List.length_drop (pat.length - 1) rest
          simp only [List.length_cons] at hs
          omega
        exact ih (rest.drop (pat.length - 1)) hlen hnd h2
      · rw [if_neg hp]
        intro hcon
        rcases List.infix_cons_iff.mp hcon with hpre | hinf
        · have hres : (c :: replaceAllGo pat redactMarker fuel rest)
              = replaceAllGo pat redactMarker (fuel + 1) (c :: rest) := by
            rw [replaceAllGo, if_neg hp]
          rw [hres] at hpre
          have hvp := prefix_of_replaceAllGo pat (fuel + 1) (c :: rest) v
            hv.1 hv.2.1 hpre
          exact hns hvp.isInfix
        · exact ih rest (by simp only [List.length_cons] at hs; omega)
            hnrest hinf

/-- `replaceAll` with the marker removes a clean secret pattern. -/
theorem not_infix_replaceAll_self {v : Str} (hv : CleanSecret v) (s : Str) :
    ¬ v <:+: replaceAll v redactMarker s :=
  not_infix_replaceAllGo_self hv s.length s (Nat.le_refl _)

/-- `replaceAll` with the marker never introduces a clean secret. -/
theorem not_infix_replaceAll_of_not_infix {v : Str} (hv : CleanSecret v)
    (pat s : Str) (hns : ¬ v <:+: s) :
    ¬ v <:+: replaceAll pat redactMarker s :=
  not_infix_replaceAllGo_of_not_infix hv pat s.length s (Nat.le_refl _) hns

/-- One redaction step never introduces a clean secret. -/
theorem not_infix_redactStep {v : Str} (hv : CleanSecret v)
    (env : Str → Option Str) (acc k : Str) (hns : ¬ v <:+: acc) :
    ¬ v <:+: redactStep env acc k := by
  rw [redactStep]
  cases env k with
  | none => exact hns
  | some u =>
    simp only
    by_cases hu : u.isEmpty = true
    · rw [if_pos hu]; exact hns
    · rw [if_neg hu]; exact not_infix_replaceAll_of_not_infix hv u acc hns

/-- The redaction fold never introduces a clean secret. -/
theorem not_infix_foldl_redactStep {v : Str} (hv : CleanSecret v)
    (env : Str → Option Str) (keys : List Str) :
    ∀ acc : Str, ¬ v <:+: acc →
      ¬ v <:+: keys.foldl (redactStep env) acc := by
  induction keys with
  | nil => intro acc hns; exact hns
  | cons k0 rest ih =>
    intro acc hns
    exact ih (redactStep env acc k0) (not_infix_redactStep hv env acc k0 hns)

/-- After the fold passes over a key whose value is the clean secret `v`,
the secret is absent from the result. -/
theorem not_infix_foldl_redactStep_mem {v k : Str} (hv : CleanSecret v)
    (env : Str → Option Str) (henv : env k = some v) (keys : List Str)
    (hk : k ∈ keys) :
    ∀ acc : Str, ¬ v <:+: keys.foldl (redactStep env) acc := by
  induction keys with
  | nil => exact absurd hk (List.not_mem_nil k)
  | cons k0 rest ih =>
    intro acc
    rcases List.mem_cons.mp hk with rfl | hmem
    · have hstep : ¬ v <:+: redactStep env acc k := by
        rw [redactStep, henv]
        simp only
        rw [if_neg (by simpa using hv.1)]
        exact not_infix_replaceAll_self hv acc
      exact not_infix_foldl_redactStep hv env rest _ hstep
    · exact ih hmem (redactStep env acc k0)

/-- `_redact` removes every clean sensitive value. -/
theorem not_infix_redactText {v k : Str} (hv : CleanSecret v)
    (env : Str → Option Str) (hk : k ∈ REDACT_KEYS) (henv : env k = some v)
    (text : Str) : ¬ v <:+: redactText env text := by
  rw [redactText]
  by_cases ht : text.isEmpty = true
  · rw [if_pos ht]
    intro hcon
    rw [List.isEmpty_iff.mp ht] at hcon
    exact absurd (List.eq_nil_of_infix_nil hcon) hv.1
  · rw [if_neg ht]
    exact not_infix_foldl_redactStep_mem hv env henv REDACT_KEYS hk text

/-- `strip` only discards characters, so occurrences inside the stripped
text already occur in the text. -/
theorem pyStrip_within (s : Str) : pyStrip s <:+: s := by
  rw [pyStrip]
  have h1 : s.dropWhile isPySpace <:+ s := List.dropWhile_suffix isPySpace
  have h2 : ((s.dropWhile isPySpace).reverse.dropWhile isPySpace).reverse
      <+: s.dropWhile isPySpace := by
    have h3 := List.dropWhile_suffix (l := (s.dropWhile isPySpace).reverse)
      isPySpace
    have h4 : (((s.dropWhile isPySpace).reverse.dropWhile
        isPySpace).reverse).reverse <:+ (s.dropWhile isPySpace).reverse := by
      simpa using h3
    exact List.reverse_suffix.mp h4
  exact h2.isInfix.trans h1.isInfix

/-- C8 amended: for every completed command and every sensitive environment
variable whose current value is a *clean* secret — non-empty, containing
neither `[` nor `]`, not a substring of the marker interior `redacted`, and
not a substring of the two fixed error texts — the value is absent from the
redacted stdout and stderr, from any returned error text, and from the
redacted stdout text handed to `json.loads` (unconditionally, also on
success).  Without the cleanliness conditions the property fails, because
the replacement inserts the literal `[redacted]`. -/
theorem runStdio_redacts_clean_secrets (jsonParses : Str → Bool)
    (env : Str → Option Str) (proc : ProcOutcome) (k v : Str)
    (hk : k ∈ REDACT_KEYS) (henv : env k = some v) (hv : CleanSecret v)
    (hmsg1 : ¬ v <:+: "MCP command failed".toList)
    (hmsg2 : ¬ v <:+: "Invalid MCP response (non-JSON)".toList) :
    (¬ v <:+: redactText env proc.procStdout)
    ∧ (¬ v <:+: redactText env proc.procStderr)
    ∧ (∀ e, (runStdioCommandCompleted jsonParses env proc).errorText = some e
        → ¬ v <:+: e)
    ∧ (∀ d, (runStdioCommandCompleted jsonParses env proc).dataText = some d
        → ¬ v <:+: d) := by
  have hout := not_infix_redactText hv env hk henv proc.procStdout
  have herr := not_infix_redactText hv env hk henv proc.procStderr
  refine ⟨hout, herr, ?_, ?_⟩
  · intro e he
    rw [runStdioCommandCompleted] at he
    by_cases hx : proc.exitCode ≠ 0
    · rw [if_pos hx] at he
      simp only [Option.some_inj] at he
      subst he
      by_cases hs : (pyStrip (redactText env proc.procStderr)).isEmpty = true
      · rw [if_pos hs]; exact hmsg1
      · rw [if_neg hs]
        exact fun hcon =>
          herr (hcon.trans (pyStrip_within (redactText env proc.procStderr)))
    · rw [if_neg hx] at he
      by_cases hemp : (redactText env proc.procStdout).isEmpty = true
      · rw [if_pos hemp] at he
        exact absurd he (by simp)
      · rw [if_neg hemp] at he
        by_cases hjp : jsonParses (redactText env proc.procStdout) = true
        · rw [if_pos hjp] at he
          exact absurd he (by simp)
        · rw [if_neg hjp] at he
          simp only [Option.some_inj] at he
          subst he
          exact hmsg2
  · intro d hd
    rw [runStdioCommandCompleted] at hd
    by_cases hx : proc.exitCode ≠ 0
    · rw [if_pos hx] at hd
      exact absurd hd (by simp)
    · rw [if_neg hx] at hd
      by_cases hemp : (redactText env proc.procStdout).isEmpty = true
      · rw [if_pos hemp] at hd
        exact absurd hd (by simp)
      · rw [if_neg hemp] at hd
        by_cases hjp : jsonParses (redactText env proc.procStdout) = true
        · rw [if_pos hjp] at hd
          simp only [Option.some_inj] at hd
          subst hd
          exact hout
        · rw [if_neg hjp] at hd
          exact absurd hd (by simp)

/-- A one-variable environment used by the C8 scenarios. -/
def envGithubToken (value : Str) : Str → Option Str :=
  fun k => if k = "GITHUB_TOKEN".toList then some value else none

/-- Witness for the amended C8: the clean secret value "s3cr3tv4l" leaking
into stderr of a failing command is absent from the redacted stderr. -/
theorem runStdio_redacts_clean_secrets_witness :
    ¬ "s3cr3tv4l".toList <:+:
      redactText (envGithubToken "s3cr3tv4l".toList)
        "fatal: s3cr3tv4l rejected".toList :=
  (runStdio_redacts_clean_secrets (fun _ => true)
    (envGithubToken "s3cr3tv4l".toList)
    ⟨1, [], "fatal: s3cr3tv4l rejected".toList⟩
    "GITHUB_TOKEN".toList "s3cr3tv4l".toList
    (by decide) (by decide) (by decide) (by decide) (by decide)).2.1

/-- C8 counterexample: with `GITHUB_TOKEN=red` and a failing command whose
captured stderr is exactly `red`, the returned error text is the marker
`[redacted]` — which still contains the literal value `red`.  The claim
"the value does not appear in the returned result's error text" is
therefore false as stated. -/
theorem runStdio_redaction_misses_marker_overlap :
    (runStdioCommandCompleted (fun _ => true)
        (envGithubToken "red".toList) ⟨1, [], "red".toList⟩).errorText
      = some "[redacted]".toList
    ∧ containsSub "red".toList "red".toList = true
    ∧ containsSub "[redacted]".toList "red".toList = true := by
  refine ⟨by decide, by decide, by decide⟩
